import Mathlib

/-!
# obsbot-remote: the native addon (device_wrapper.cpp, obsbot_addon.cpp)

A shallow embedding of the Node addon that wraps the OBSBOT device SDK.

* JavaScript values that cross the addon boundary are the type `JsValue`.
  Finite JavaScript numbers are carried as exact rationals (every int32, float
  and finite double is one); NaN and the infinities are outside the model.
* The SDK (`Device`, `Devices`) is not part of the repository.  A device object
  is an interpreter `exec` of SDK method calls over an arbitrary SDK state `σ`;
  each call returns what the SDK method returns (result code and out-parameters)
  and the next SDK state.  Every call made through `device_->` is logged with
  its reply.
* The node-addon-api build flavour (C++ exceptions on or off) decides what a
  failing value conversion does; it is the parameter `Napi`.
* The module statics (`tsfn`, `isInitialized`) are the fields of `Addon`.  The
  thread-safe function is followed through its life in N-API: created, called
  from the SDK thread (queued), dispatched by the event loop (delivered),
  released, torn down.  Calls into `Devices::get()` and on `tsfn` are logged.
-/

namespace Obsbot

/-! ## JavaScript values -/

/-- Property values the addon stores in the objects it builds. -/
inductive Prim where
  | undefined
  | null
  | boolean (b : Bool)
  | number (x : Rat)
  | string (s : String)
  deriving DecidableEq, Repr

/-- A plain JavaScript object: its own properties in insertion order. -/
abbrev JsObject := List (String × Prim)

/-- Values passed to and returned from the addon. -/
inductive JsValue where
  | undefined
  | null
  | boolean (b : Bool)
  | number (x : Rat)
  | string (s : String)
  | function (id : Nat)
  | object (props : JsObject)
  | array (elems : List JsObject)
  deriving DecidableEq, Repr

/-- The call `obj.Set(key, value)`: overwrite the property when present, append it otherwise. -/
def JsObject.Set (o : JsObject) (key : String) (value : Prim) : JsObject :=
  if o.any (fun p => p.1 == key) then
    o.map (fun p => if p.1 == key then (key, value) else p)
  else o ++ [(key, value)]

/-- Property lookup. -/
def JsObject.Get (o : JsObject) (key : String) : Option Prim :=
  (o.find? (fun p => p.1 == key)).map (fun p => p.2)

/-- Whether the object has the property. -/
def JsObject.Has (o : JsObject) (key : String) : Bool :=
  o.any (fun p => p.1 == key)

/-- The expression `Napi::Number::New(env, i)` for a C integer. -/
def NumberNew (i : Int) : JsValue := .number (i : Rat)

/-- The argument `info[i]`: out of range reads give undefined. -/
def arg (info : List JsValue) (i : Nat) : JsValue := info.getD i .undefined

/-! ## Value conversions of node-addon-api -/

/-- A C float argument, recorded by the double it is narrowed from. -/
structure Float32 where
  ofDouble :: (src : Rat)
  deriving DecidableEq, Repr

/-- Conversion of a finite number to int32: truncate toward zero, keep the low 32 bits. -/
def toInt32 (x : Rat) : Int :=
  let m := (Int.tdiv x.num (x.den : Int)) % (2 : Int) ^ 32
  if m < (2 : Int) ^ 31 then m else m - (2 : Int) ^ 32

/-- The call `As<Napi::Number>().Int32Value()`; `none` is the status napi_number_expected. -/
def JsValue.Int32Value : JsValue → Option Int
  | .number x => some (toInt32 x)
  | _ => none

/-- The call `As<Napi::Number>().DoubleValue()`. -/
def JsValue.DoubleValue : JsValue → Option Rat
  | .number x => some x
  | _ => none

/-- The call `As<Napi::Number>().FloatValue()`. -/
def JsValue.FloatValue : JsValue → Option Float32
  | .number x => some (.ofDouble x)
  | _ => none

/-- The call `As<Napi::Boolean>().Value()`; `none` is the status napi_boolean_expected. -/
def JsValue.BoolValue : JsValue → Option Bool
  | .boolean b => some b
  | _ => none

/-- Build flavour of node-addon-api. With C++ exceptions a failed conversion throws
`Napi::Error` out of the method; without them it leaves a JavaScript exception pending
and the conversion returns the zero value. -/
structure Napi where
  cppExceptions : Bool
  deriving DecidableEq, Repr

/-! ## SDK data types (dev.hpp), as far as the addon reads them -/

/-- The struct `Device::AiGimbalStateInfo`. -/
structure AiGimbalStateInfo where
  pitch_euler : Rat
  yaw_euler : Rat
  roll_euler : Rat
  pitch_motor : Rat
  yaw_motor : Rat
  roll_motor : Rat
  deriving DecidableEq, Repr

/-- The struct `Device::PresetPosInfo`. -/
structure PresetPosInfo where
  id : Int
  pitch : Rat
  yaw : Rat
  roll : Rat
  zoom : Rat
  name : String
  deriving DecidableEq, Repr

/-- The value-initialised preset `Device::PresetPosInfo presetInfo = {}`. -/
def PresetPosInfo.zero : PresetPosInfo := ⟨0, 0, 0, 0, 0, ""⟩

/-- The struct `Device::DevDataArray`: `len` valid entries of `data_int32`. The count is
taken as non-negative and the array is read only below `len`. -/
structure DevDataArray where
  len : Nat
  data_int32 : Nat → Int

/-- The struct `Device::UvcParamRange`. -/
structure UvcParamRange where
  min_ : Int
  max_ : Int
  step_ : Int
  default_ : Int
  deriving DecidableEq, Repr

/-- The member `tiny` of `Device::CameraStatus`, restricted to the fields the addon reads. -/
structure TinyStatus where
  ai_mode : Int
  ai_sub_mode : Int
  hdr : Int
  fov : Int
  zoom_ratio : Int
  anti_flicker : Int
  face_auto_focus : Int
  auto_focus : Int
  image_flip_hor : Int
  ai_tracker_speed : Int
  deriving DecidableEq, Repr

/-- The struct `Device::CameraStatus`. -/
structure CameraStatus where
  tiny : TinyStatus
  deriving DecidableEq, Repr

/-- The struct `Device::AiStatus`, restricted to the fields the addon reads. -/
structure AiStatus where
  gesture_target : Bool
  gesture_zoom : Bool
  gesture_dynamic_zoom : Bool
  deriving DecidableEq, Repr

/-- The enumerators of `ObsbotProductType` that `GetCameraStatus` compares against.
Their integer values live in the SDK header. -/
structure ProductTypes where
  ObsbotProdTiny : Int
  ObsbotProdTiny4k : Int
  ObsbotProdTiny2 : Int
  ObsbotProdTiny2Lite : Int
  ObsbotProdTinySE : Int
  deriving DecidableEq, Repr

/-! ## The SDK device object -/

/-- One call through `device_->`, with the arguments the addon passes. -/
inductive DriverCall where
  | devName | devSn | productType | videoDevPath | audioDevPath | devVersion | devModelCode
  | cameraStatus
  | aiSetGimbalSpeedCtrlR (pitch pan roll : Rat)
  | aiSetGimbalMotorAngleR (pitch yaw roll : Float32)
  | aiSetGimbalStop
  | gimbalRstPosR
  | aiGetGimbalStateR
  | aiAddGimbalPresetR
  | aiDelGimbalPresetR (id : Int)
  | aiTrgGimbalPresetR (id : Int)
  | aiGetGimbalPresetListR
  | aiGetGimbalPresetInfoWithIdR (id : Int)
  | aiSetGimbalBootPosR (info : PresetPosInfo)
  | aiTrgGimbalBootPosR (reset : Bool)
  | cameraSetZoomAbsoluteR (zoom : Float32)
  | cameraGetZoomAbsoluteR
  | cameraGetRangeZoomAbsoluteR
  | cameraSetFocusAbsolute (focus : Int) (autoFocus : Bool)
  | cameraGetFocusAbsolute
  | cameraSetFaceFocusR (enable : Bool)
  | cameraGetRangeFocusAbsolute
  | cameraSetAutoFocusModeR (mode : Int)
  | cameraGetAutoFocusModeR
  | cameraSetExposureModeR (mode : Int)
  | cameraGetExposureModeR
  | cameraSetExposureAbsolute (exposure : Int) (autoEnabled : Bool)
  | cameraGetExposureAbsolute
  | cameraSetAELockR (enable : Bool)
  | cameraSetWhiteBalanceR (type param : Int)
  | cameraGetWhiteBalanceR
  | cameraGetRangeWhiteBalanceR
  | cameraSetImageBrightnessR (value : Int)
  | cameraGetImageBrightnessR
  | cameraSetImageContrastR (value : Int)
  | cameraGetImageContrastR
  | cameraSetImageSaturationR (value : Int)
  | cameraGetImageSaturationR
  | cameraSetImageSharpR (value : Int)
  | cameraGetImageSharpR
  | cameraSetImageHueR (value : Int)
  | cameraGetImageHueR
  | cameraSetWdrR (mode : Int)
  | cameraGetWdrR
  | cameraSetFovU (fov : Int)
  | cameraSetMirrorFlipR (mode : Int)
  | cameraGetMirrorFlipR
  | aiSetEnabledR (enabled : Bool)
  | cameraSetAiModeU (mode subMode : Int)
  | aiSetTrackSpeedTypeR (speed : Int)
  | aiSetAiAutoZoomR (enabled : Bool)
  | aiSetGestureCtrlIndividualR (gesture : Int) (enabled : Bool)
  | aiSetSelectCentralTarget
  | aiSetSelectBiggestTarget
  | aiDelSelectedTargetR
  | cameraSetDevRunStatusR (status : Int)
  | cameraSetSuspendTimeU (timeout : Int)
  | cameraSetAntiFlickR (mode : Int)
  | cameraGetCameraStatusU
  | aiGetAiStatusR
  deriving Repr

/-- What a call hands back: accessors give their value, commands the int32 result code,
queries the result code together with what they wrote to their out-parameters. -/
@[reducible] def DriverCall.Reply : DriverCall → Type
  | .devName | .devSn | .videoDevPath | .audioDevPath | .devVersion | .devModelCode => String
  | .productType => Int
  | .cameraStatus => CameraStatus
  | .aiGetGimbalStateR => Int × AiGimbalStateInfo
  | .aiAddGimbalPresetR => Int × PresetPosInfo
  | .aiGetGimbalPresetListR => Int × DevDataArray
  | .aiGetGimbalPresetInfoWithIdR _ => Int × PresetPosInfo
  | .cameraGetZoomAbsoluteR => Int × Rat
  | .cameraGetRangeZoomAbsoluteR | .cameraGetRangeFocusAbsolute
  | .cameraGetRangeWhiteBalanceR => Int × UvcParamRange
  | .cameraGetFocusAbsolute | .cameraGetExposureAbsolute => Int × Int × Bool
  | .cameraGetWhiteBalanceR => Int × Int × Int
  | .cameraGetAutoFocusModeR | .cameraGetExposureModeR | .cameraGetImageBrightnessR
  | .cameraGetImageContrastR | .cameraGetImageSaturationR | .cameraGetImageSharpR
  | .cameraGetImageHueR | .cameraGetWdrR | .cameraGetMirrorFlipR => Int × Int
  | .cameraGetCameraStatusU => Int × CameraStatus
  | .aiGetAiStatusR => Int × AiStatus
  | _ => Int

/-- A `std::shared_ptr<Device>`: the SDK object behind a wrapper, acting on the SDK state. -/
structure Device (σ : Type) where
  exec : (c : DriverCall) → σ → c.Reply × σ

/-! ## Running a native method -/

/-- One completed driver call: the call and what the SDK handed back. -/
structure Exchange where
  call : DriverCall
  reply : call.Reply

/-- State threaded through a native method: the SDK state, the driver calls made so far
(oldest first), and whether a JavaScript exception is pending. -/
structure Ctx (σ : Type) where
  sdk : σ
  calls : List Exchange
  pending : Bool

/-- One step of a native method: it goes on with a value, or a C++ exception unwinds it. -/
inductive Step (σ α : Type) where
  | ok (a : α) (c : Ctx σ)
  | thrown (c : Ctx σ)

/-- Native method bodies. -/
def M (σ α : Type) : Type := Ctx σ → Step σ α

/-- Sequencing of statements. -/
def M.bind {σ α β : Type} (m : M σ α) (f : α → M σ β) : M σ β := fun c =>
  match m c with
  | .ok a c1 => f a c1
  | .thrown c1 => .thrown c1

instance (σ : Type) : Monad (M σ) where
  pure a := fun c => .ok a c
  bind := M.bind

/-- The call `device_->c(...)`: logged, answered by the SDK. -/
def Device.call {σ : Type} (d : Device σ) (c : DriverCall) : M σ c.Reply := fun ctx =>
  let r := d.exec c ctx.sdk
  .ok r.1 { ctx with sdk := r.2, calls := ctx.calls ++ [⟨c, r.1⟩] }

/-- A value conversion under `NAPI_THROW_IF_FAILED`. -/
def Napi.conv {σ α : Type} (napi : Napi) (r : Option α) (dflt : α) : M σ α := fun ctx =>
  match r with
  | some a => .ok a ctx
  | none =>
    if napi.cppExceptions then .thrown ctx
    else .ok dflt { ctx with pending := true }

/-- What the JavaScript caller observes. -/
inductive Outcome where
  | returned (v : JsValue)
  | threw
  deriving DecidableEq, Repr

/-- A finished native call: what the caller sees, the driver calls made, the SDK state left. -/
structure Run (σ : Type) where
  outcome : Outcome
  calls : List Exchange
  sdk : σ

/-- Run a native method from SDK state `s`. A pending exception supersedes the return value. -/
def M.run {σ : Type} (m : M σ JsValue) (s : σ) : Run σ :=
  match m ⟨s, [], false⟩ with
  | .ok v c => ⟨if c.pending then .threw else .returned v, c.calls, c.sdk⟩
  | .thrown c => ⟨.threw, c.calls, c.sdk⟩

/-! ### The method table of `DeviceWrapper::Init` -/

/-- The JavaScript method names registered by `DefineClass`. -/
inductive Method where
  | getDeviceName | getSerialNumber | getProductType | getVideoDevicePath | getDeviceInfo
  | setGimbalSpeed | setGimbalAngle | stopGimbal | resetGimbalPosition | getGimbalState
  | addPreset | deletePreset | triggerPreset | getPresetList | setBootPosition
  | triggerBootPosition | setZoom | getZoom | getZoomRange | setFocus | getFocus | setFaceFocus
  | getFocusRange | setAutoFocusMode | getAutoFocusMode | setExposureMode | getExposureMode
  | setExposure | getExposure | setAELock | setWhiteBalance | getWhiteBalance
  | getWhiteBalanceRange | setBrightness | getBrightness | setContrast | getContrast
  | setSaturation | getSaturation | setSharpness | getSharpness | setHue | getHue | setHDR
  | getHDR | setFOV | setMirrorFlip | getMirrorFlip | setAIEnabled | setAIMode | setTrackingSpeed
  | setAutoZoom | setGestureControl | selectCentralTarget | selectBiggestTarget | deselectTarget
  | setDeviceRunStatus | setSleepTimeout | setAntiFlicker | getCameraStatus
  deriving DecidableEq, Repr

/-! ## DeviceWrapper (device_wrapper.cpp) -/

/-- The class `DeviceWrapper`: its only data member is `device_`, null until `SetDevice`. -/
structure DeviceWrapper (σ : Type) where
  device_ : Option (Device σ)

namespace DeviceWrapper

variable {σ : Type}

/-- The constructor: `device_` starts out null. -/
def new : DeviceWrapper σ := ⟨none⟩

/-- The method `SetDevice`. -/
def SetDevice (_w : DeviceWrapper σ) (device : Option (Device σ)) : DeviceWrapper σ :=
  ⟨device⟩

/-- The static method `NewInstance`: construct, then `SetDevice`. -/
def NewInstance (device : Option (Device σ)) : DeviceWrapper σ :=
  (new : DeviceWrapper σ).SetDevice device

/-! ### Device info -/

/-- The method `GetDeviceName`. -/
def GetDeviceName (w : DeviceWrapper σ) (_info : List JsValue) : M σ JsValue :=
  match w.device_ with
  | none => pure .null
  | some device_ => do
    let name ← device_.call .devName
    pure (.string name)

/-- The method `GetSerialNumber`. -/
def GetSerialNumber (w : DeviceWrapper σ) (_info : List JsValue) : M σ JsValue :=
  match w.device_ with
  | none => pure .null
  | some device_ => do
    let sn ← device_.call .devSn
    pure (.string sn)

/-- The method `GetProductType`. -/
def GetProductType (w : DeviceWrapper σ) (_info : List JsValue) : M σ JsValue :=
  match w.device_ with
  | none => pure .null
  | some device_ => do
    let productType ← device_.call .productType
    pure (NumberNew productType)

/-- The method `GetVideoDevicePath`. -/
def GetVideoDevicePath (w : DeviceWrapper σ) (_info : List JsValue) : M σ JsValue :=
  match w.device_ with
  | none => pure .null
  | some device_ => do
    let path ← device_.call .videoDevPath
    pure (.string path)

/-- The method `GetDeviceInfo`. -/
def GetDeviceInfo (w : DeviceWrapper σ) (_info : List JsValue) : M σ JsValue :=
  match w.device_ with
  | none => pure .null
  | some device_ => do
    let obj : JsObject := []
    let name ← device_.call .devName
    let obj := obj.Set "name" (.string name)
    let sn ← device_.call .devSn
    let obj := obj.Set "serialNumber" (.string sn)
    let productType ← device_.call .productType
    let obj := obj.Set "productType" (.number productType)
    let video ← device_.call .videoDevPath
    let obj := obj.Set "videoDevicePath" (.string video)
    let audio ← device_.call .audioDevPath
    let obj := obj.Set "audioDevicePath" (.string audio)
    let version ← device_.call .devVersion
    let obj := obj.Set "version" (.string version)
    let modelCode ← device_.call .devModelCode
    let obj := obj.Set "modelCode" (.string modelCode)
    pure (.object obj)

/-! ### Gimbal control -/

/-- The method `SetGimbalSpeed`. -/
def SetGimbalSpeed (napi : Napi) (w : DeviceWrapper σ) (info : List JsValue) : M σ JsValue :=
  match w.device_ with
  | none => pure (NumberNew (-1))
  | some device_ =>
    if info.length < 3 then pure (NumberNew (-1)) else do
      let pitch ← napi.conv (arg info 0).DoubleValue 0
      let pan ← napi.conv (arg info 1).DoubleValue 0
      let roll ← napi.conv (arg info 2).DoubleValue 0
      let result ← device_.call (.aiSetGimbalSpeedCtrlR pitch pan roll)
      pure (NumberNew result)

/-- The method `SetGimbalAngle`. -/
def SetGimbalAngle (napi : Napi) (w : DeviceWrapper σ) (info : List JsValue) : M σ JsValue :=
  match w.device_ with
  | none => pure (NumberNew (-1))
  | some device_ =>
    if info.length < 3 then pure (NumberNew (-1)) else do
      let pitch ← napi.conv (arg info 0).FloatValue ⟨0⟩
      let yaw ← napi.conv (arg info 1).FloatValue ⟨0⟩
      let roll ← napi.conv (arg info 2).FloatValue ⟨0⟩
      let result ← device_.call (.aiSetGimbalMotorAngleR pitch yaw roll)
      pure (NumberNew result)

/-- The method `StopGimbal`. -/
def StopGimbal (w : DeviceWrapper σ) (_info : List JsValue) : M σ JsValue :=
  match w.device_ with
  | none => pure (NumberNew (-1))
  | some device_ => do
    let result ← device_.call .aiSetGimbalStop
    pure (NumberNew result)

/-- The method `ResetGimbalPosition`. -/
def ResetGimbalPosition (w : DeviceWrapper σ) (_info : List JsValue) : M σ JsValue :=
  match w.device_ with
  | none => pure (NumberNew (-1))
  | some device_ => do
    let result ← device_.call .gimbalRstPosR
    pure (NumberNew result)

/-- The method `GetGimbalState`. -/
def GetGimbalState (w : DeviceWrapper σ) (_info : List JsValue) : M σ JsValue :=
  match w.device_ with
  | none => pure .null
  | some device_ => do
    let (result, gimbalInfo) ← device_.call .aiGetGimbalStateR
    if result ≠ 0 then pure .null else
      let obj : JsObject := []
      let obj := obj.Set "pitch" (.number gimbalInfo.pitch_euler)
      let obj := obj.Set "yaw" (.number gimbalInfo.yaw_euler)
      let obj := obj.Set "roll" (.number gimbalInfo.roll_euler)
      let obj := obj.Set "motorPitch" (.number gimbalInfo.pitch_motor)
      let obj := obj.Set "motorYaw" (.number gimbalInfo.yaw_motor)
      let obj := obj.Set "motorRoll" (.number gimbalInfo.roll_motor)
      pure (.object obj)

/-! ### Preset positions -/

/-- The method `AddPreset`. -/
def AddPreset (w : DeviceWrapper σ) (_info : List JsValue) : M σ JsValue :=
  match w.device_ with
  | none => pure (NumberNew (-1))
  | some device_ => do
    let (result, presetInfo) ← device_.call .aiAddGimbalPresetR
    if result = 0 then pure (NumberNew presetInfo.id) else pure (NumberNew result)

/-- The method `DeletePreset`. -/
def DeletePreset (napi : Napi) (w : DeviceWrapper σ) (info : List JsValue) : M σ JsValue :=
  match w.device_ with
  | none => pure (NumberNew (-1))
  | some device_ =>
    if info.length < 1 then pure (NumberNew (-1)) else do
      let id ← napi.conv (arg info 0).Int32Value 0
      let result ← device_.call (.aiDelGimbalPresetR id)
      pure (NumberNew result)

/-- The method `TriggerPreset`. -/
def TriggerPreset (napi : Napi) (w : DeviceWrapper σ) (info : List JsValue) : M σ JsValue :=
  match w.device_ with
  | none => pure (NumberNew (-1))
  | some device_ =>
    if info.length < 1 then pure (NumberNew (-1)) else do
      let id ← napi.conv (arg info 0).Int32Value 0
      let result ← device_.call (.aiTrgGimbalPresetR id)
      pure (NumberNew result)

/-- The loop body of `GetPresetList` for the id at index `i`. -/
def presetEntry (device_ : Device σ) (ids : DevDataArray) (i : Nat) : M σ JsObject := do
  let preset : JsObject := []
  let preset := preset.Set "id" (.number (ids.data_int32 i))
  let (rc, presetInfo) ← device_.call (.aiGetGimbalPresetInfoWithIdR (ids.data_int32 i))
  if rc = 0 then
    let preset := preset.Set "pitch" (.number presetInfo.pitch)
    let preset := preset.Set "yaw" (.number presetInfo.yaw)
    let preset := preset.Set "roll" (.number presetInfo.roll)
    let preset := preset.Set "zoom" (.number presetInfo.zoom)
    let preset := preset.Set "name" (.string presetInfo.name)
    pure preset
  else pure preset

/-- The loop `for (i = 0; i < ids.len; i++)` of `GetPresetList`, from index `i` with
`n` iterations left; it fills the array slots in index order. -/
def presetLoop (device_ : Device σ) (ids : DevDataArray) : Nat → Nat → M σ (List JsObject)
  | _, 0 => pure []
  | i, n + 1 => do
    let preset ← presetEntry device_ ids i
    let rest ← presetLoop device_ ids (i + 1) n
    pure (preset :: rest)

/-- The method `GetPresetList`. -/
def GetPresetList (w : DeviceWrapper σ) (_info : List JsValue) : M σ JsValue :=
  match w.device_ with
  | none => pure .null
  | some device_ => do
    let (result, ids) ← device_.call .aiGetGimbalPresetListR
    if result ≠ 0 then pure .null else do
      let arr ← presetLoop device_ ids 0 ids.len
      pure (.array arr)

/-- The method `SetBootPosition`. -/
def SetBootPosition (w : DeviceWrapper σ) (_info : List JsValue) : M σ JsValue :=
  match w.device_ with
  | none => pure (NumberNew (-1))
  | some device_ => do
    let presetInfo := PresetPosInfo.zero
    let (rcGimbal, gimbalInfo) ← device_.call .aiGetGimbalStateR
    let presetInfo :=
      if rcGimbal = 0 then
        { presetInfo with pitch := gimbalInfo.pitch_motor, yaw := gimbalInfo.yaw_motor,
                          roll := gimbalInfo.roll_motor }
      else presetInfo
    let (rcZoom, zoom) ← device_.call .cameraGetZoomAbsoluteR
    let presetInfo := if rcZoom = 0 then { presetInfo with zoom := zoom } else presetInfo
    let result ← device_.call (.aiSetGimbalBootPosR presetInfo)
    pure (NumberNew result)

/-- The method `TriggerBootPosition`. -/
def TriggerBootPosition (w : DeviceWrapper σ) (_info : List JsValue) : M σ JsValue :=
  match w.device_ with
  | none => pure (NumberNew (-1))
  | some device_ => do
    let result ← device_.call (.aiTrgGimbalBootPosR false)
    pure (NumberNew result)

/-! ### Zoom control -/

/-- The method `SetZoom`. -/
def SetZoom (napi : Napi) (w : DeviceWrapper σ) (info : List JsValue) : M σ JsValue :=
  match w.device_ with
  | none => pure (NumberNew (-1))
  | some device_ =>
    if info.length < 1 then pure (NumberNew (-1)) else do
      let v ← napi.conv (arg info 0).FloatValue ⟨0⟩
      let result ← device_.call (.cameraSetZoomAbsoluteR v)
      pure (NumberNew result)

/-- The method `GetZoom`. -/
def GetZoom (w : DeviceWrapper σ) (_info : List JsValue) : M σ JsValue :=
  match w.device_ with
  | none => pure .null
  | some device_ => do
    let r ← device_.call .cameraGetZoomAbsoluteR
    if r.1 = 0 then pure (.number r.2) else pure .null

/-- The method `GetZoomRange`. -/
def GetZoomRange (w : DeviceWrapper σ) (_info : List JsValue) : M σ JsValue :=
  match w.device_ with
  | none => pure .null
  | some device_ => do
    let (rc, range) ← device_.call .cameraGetRangeZoomAbsoluteR
    if rc = 0 then
      let obj : JsObject := []
      let obj := obj.Set "min" (.number range.min_)
      let obj := obj.Set "max" (.number range.max_)
      let obj := obj.Set "step" (.number range.step_)
      let obj := obj.Set "default" (.number range.default_)
      pure (.object obj)
    else pure .null

/-! ### Focus control -/

/-- The method `SetFocus`. -/
def SetFocus (napi : Napi) (w : DeviceWrapper σ) (info : List JsValue) : M σ JsValue :=
  match w.device_ with
  | none => pure (NumberNew (-1))
  | some device_ =>
    if info.length < 1 then pure (NumberNew (-1)) else do
      let v ← napi.conv (arg info 0).Int32Value 0
      let result ← device_.call (.cameraSetFocusAbsolute v false)
      pure (NumberNew result)

/-- The method `GetFocus`. -/
def GetFocus (w : DeviceWrapper σ) (_info : List JsValue) : M σ JsValue :=
  match w.device_ with
  | none => pure .null
  | some device_ => do
    let r ← device_.call .cameraGetFocusAbsolute
    if r.1 = 0 then pure (NumberNew r.2.1) else pure .null

/-- The method `SetFaceFocus`. -/
def SetFaceFocus (napi : Napi) (w : DeviceWrapper σ) (info : List JsValue) : M σ JsValue :=
  match w.device_ with
  | none => pure (NumberNew (-1))
  | some device_ =>
    if info.length < 1 then pure (NumberNew (-1)) else do
      let v ← napi.conv (arg info 0).BoolValue false
      let result ← device_.call (.cameraSetFaceFocusR v)
      pure (NumberNew result)

/-- The method `GetFocusRange`. -/
def GetFocusRange (w : DeviceWrapper σ) (_info : List JsValue) : M σ JsValue :=
  match w.device_ with
  | none => pure .null
  | some device_ => do
    let (rc, range) ← device_.call .cameraGetRangeFocusAbsolute
    if rc = 0 then
      let obj : JsObject := []
      let obj := obj.Set "min" (.number range.min_)
      let obj := obj.Set "max" (.number range.max_)
      let obj := obj.Set "step" (.number range.step_)
      let obj := obj.Set "default" (.number range.default_)
      pure (.object obj)
    else pure .null

/-- The method `SetAutoFocusMode`. -/
def SetAutoFocusMode (napi : Napi) (w : DeviceWrapper σ) (info : List JsValue) : M σ JsValue :=
  match w.device_ with
  | none => pure (NumberNew (-1))
  | some device_ =>
    if info.length < 1 then pure (NumberNew (-1)) else do
      let v ← napi.conv (arg info 0).Int32Value 0
      let result ← device_.call (.cameraSetAutoFocusModeR v)
      pure (NumberNew result)

/-- The method `GetAutoFocusMode`. -/
def GetAutoFocusMode (w : DeviceWrapper σ) (_info : List JsValue) : M σ JsValue :=
  match w.device_ with
  | none => pure .null
  | some device_ => do
    let r ← device_.call .cameraGetAutoFocusModeR
    if r.1 = 0 then pure (NumberNew r.2) else pure .null

/-! ### Exposure control -/

/-- The method `SetExposureMode`. -/
def SetExposureMode (napi : Napi) (w : DeviceWrapper σ) (info : List JsValue) : M σ JsValue :=
  match w.device_ with
  | none => pure (NumberNew (-1))
  | some device_ =>
    if info.length < 1 then pure (NumberNew (-1)) else do
      let v ← napi.conv (arg info 0).Int32Value 0
      let result ← device_.call (.cameraSetExposureModeR v)
      pure (NumberNew result)

/-- The method `GetExposureMode`. -/
def GetExposureMode (w : DeviceWrapper σ) (_info : List JsValue) : M σ JsValue :=
  match w.device_ with
  | none => pure .null
  | some device_ => do
    let r ← device_.call .cameraGetExposureModeR
    if r.1 = 0 then pure (NumberNew r.2) else pure .null

/-- The method `SetExposure`. -/
def SetExposure (napi : Napi) (w : DeviceWrapper σ) (info : List JsValue) : M σ JsValue :=
  match w.device_ with
  | none => pure (NumberNew (-1))
  | some device_ =>
    if info.length < 1 then pure (NumberNew (-1)) else do
      let v ← napi.conv (arg info 0).Int32Value 0
      let result ← device_.call (.cameraSetExposureAbsolute v false)
      pure (NumberNew result)

/-- The method `GetExposure`. -/
def GetExposure (w : DeviceWrapper σ) (_info : List JsValue) : M σ JsValue :=
  match w.device_ with
  | none => pure .null
  | some device_ => do
    let r ← device_.call .cameraGetExposureAbsolute
    if r.1 = 0 then pure (NumberNew r.2.1) else pure .null

/-- The method `SetAELock`. -/
def SetAELock (napi : Napi) (w : DeviceWrapper σ) (info : List JsValue) : M σ JsValue :=
  match w.device_ with
  | none => pure (NumberNew (-1))
  | some device_ =>
    if info.length < 1 then pure (NumberNew (-1)) else do
      let v ← napi.conv (arg info 0).BoolValue false
      let result ← device_.call (.cameraSetAELockR v)
      pure (NumberNew result)

/-! ### White balance -/

/-- The method `SetWhiteBalance`. -/
def SetWhiteBalance (napi : Napi) (w : DeviceWrapper σ) (info : List JsValue) : M σ JsValue :=
  match w.device_ with
  | none => pure (NumberNew (-1))
  | some device_ =>
    if info.length < 2 then pure (NumberNew (-1)) else do
      let a ← napi.conv (arg info 0).Int32Value 0
      let b ← napi.conv (arg info 1).Int32Value 0
      let result ← device_.call (.cameraSetWhiteBalanceR a b)
      pure (NumberNew result)

/-- The method `GetWhiteBalance`. -/
def GetWhiteBalance (w : DeviceWrapper σ) (_info : List JsValue) : M σ JsValue :=
  match w.device_ with
  | none => pure .null
  | some device_ => do
    let (rc, wbType, param) ← device_.call .cameraGetWhiteBalanceR
    if rc = 0 then
      let obj : JsObject := []
      let obj := obj.Set "type" (.number wbType)
      let obj := obj.Set "value" (.number param)
      pure (.object obj)
    else pure .null

/-- The method `GetWhiteBalanceRange`. -/
def GetWhiteBalanceRange (w : DeviceWrapper σ) (_info : List JsValue) : M σ JsValue :=
  match w.device_ with
  | none => pure .null
  | some device_ => do
    let (rc, range) ← device_.call .cameraGetRangeWhiteBalanceR
    if rc = 0 then
      let obj : JsObject := []
      let obj := obj.Set "min" (.number range.min_)
      let obj := obj.Set "max" (.number range.max_)
      let obj := obj.Set "step" (.number range.step_)
      let obj := obj.Set "default" (.number range.default_)
      pure (.object obj)
    else pure .null

/-! ### Image settings -/

/-- The method `SetBrightness`. -/
def SetBrightness (napi : Napi) (w : DeviceWrapper σ) (info : List JsValue) : M σ JsValue :=
  match w.device_ with
  | none => pure (NumberNew (-1))
  | some device_ =>
    if info.length < 1 then pure (NumberNew (-1)) else do
      let v ← napi.conv (arg info 0).Int32Value 0
      let result ← device_.call (.cameraSetImageBrightnessR v)
      pure (NumberNew result)

/-- The method `GetBrightness`. -/
def GetBrightness (w : DeviceWrapper σ) (_info : List JsValue) : M σ JsValue :=
  match w.device_ with
  | none => pure .null
  | some device_ => do
    let r ← device_.call .cameraGetImageBrightnessR
    if r.1 = 0 then pure (NumberNew r.2) else pure .null

/-- The method `SetContrast`. -/
def SetContrast (napi : Napi) (w : DeviceWrapper σ) (info : List JsValue) : M σ JsValue :=
  match w.device_ with
  | none => pure (NumberNew (-1))
  | some device_ =>
    if info.length < 1 then pure (NumberNew (-1)) else do
      let v ← napi.conv (arg info 0).Int32Value 0
      let result ← device_.call (.cameraSetImageContrastR v)
      pure (NumberNew result)

/-- The method `GetContrast`. -/
def GetContrast (w : DeviceWrapper σ) (_info : List JsValue) : M σ JsValue :=
  match w.device_ with
  | none => pure .null
  | some device_ => do
    let r ← device_.call .cameraGetImageContrastR
    if r.1 = 0 then pure (NumberNew r.2) else pure .null

/-- The method `SetSaturation`. -/
def SetSaturation (napi : Napi) (w : DeviceWrapper σ) (info : List JsValue) : M σ JsValue :=
  match w.device_ with
  | none => pure (NumberNew (-1))
  | some device_ =>
    if info.length < 1 then pure (NumberNew (-1)) else do
      let v ← napi.conv (arg info 0).Int32Value 0
      let result ← device_.call (.cameraSetImageSaturationR v)
      pure (NumberNew result)

/-- The method `GetSaturation`. -/
def GetSaturation (w : DeviceWrapper σ) (_info : List JsValue) : M σ JsValue :=
  match w.device_ with
  | none => pure .null
  | some device_ => do
    let r ← device_.call .cameraGetImageSaturationR
    if r.1 = 0 then pure (NumberNew r.2) else pure .null

/-- The method `SetSharpness`. -/
def SetSharpness (napi : Napi) (w : DeviceWrapper σ) (info : List JsValue) : M σ JsValue :=
  match w.device_ with
  | none => pure (NumberNew (-1))
  | some device_ =>
    if info.length < 1 then pure (NumberNew (-1)) else do
      let v ← napi.conv (arg info 0).Int32Value 0
      let result ← device_.call (.cameraSetImageSharpR v)
      pure (NumberNew result)

/-- The method `GetSharpness`. -/
def GetSharpness (w : DeviceWrapper σ) (_info : List JsValue) : M σ JsValue :=
  match w.device_ with
  | none => pure .null
  | some device_ => do
    let r ← device_.call .cameraGetImageSharpR
    if r.1 = 0 then pure (NumberNew r.2) else pure .null

/-- The method `SetHue`. -/
def SetHue (napi : Napi) (w : DeviceWrapper σ) (info : List JsValue) : M σ JsValue :=
  match w.device_ with
  | none => pure (NumberNew (-1))
  | some device_ =>
    if info.length < 1 then pure (NumberNew (-1)) else do
      let v ← napi.conv (arg info 0).Int32Value 0
      let result ← device_.call (.cameraSetImageHueR v)
      pure (NumberNew result)

/-- The method `GetHue`. -/
def GetHue (w : DeviceWrapper σ) (_info : List JsValue) : M σ JsValue :=
  match w.device_ with
  | none => pure .null
  | some device_ => do
    let r ← device_.call .cameraGetImageHueR
    if r.1 = 0 then pure (NumberNew r.2) else pure .null

/-! ### HDR, FOV, mirror and flip -/

/-- The method `SetHDR`. -/
def SetHDR (napi : Napi) (w : DeviceWrapper σ) (info : List JsValue) : M σ JsValue :=
  match w.device_ with
  | none => pure (NumberNew (-1))
  | some device_ =>
    if info.length < 1 then pure (NumberNew (-1)) else do
      let v ← napi.conv (arg info 0).Int32Value 0
      let result ← device_.call (.cameraSetWdrR v)
      pure (NumberNew result)

/-- The method `GetHDR`. -/
def GetHDR (w : DeviceWrapper σ) (_info : List JsValue) : M σ JsValue :=
  match w.device_ with
  | none => pure .null
  | some device_ => do
    let r ← device_.call .cameraGetWdrR
    if r.1 = 0 then pure (NumberNew r.2) else pure .null

/-- The method `SetFOV`. -/
def SetFOV (napi : Napi) (w : DeviceWrapper σ) (info : List JsValue) : M σ JsValue :=
  match w.device_ with
  | none => pure (NumberNew (-1))
  | some device_ =>
    if info.length < 1 then pure (NumberNew (-1)) else do
      let v ← napi.conv (arg info 0).Int32Value 0
      let result ← device_.call (.cameraSetFovU v)
      pure (NumberNew result)

/-- The method `SetMirrorFlip`. -/
def SetMirrorFlip (napi : Napi) (w : DeviceWrapper σ) (info : List JsValue) : M σ JsValue :=
  match w.device_ with
  | none => pure (NumberNew (-1))
  | some device_ =>
    if info.length < 1 then pure (NumberNew (-1)) else do
      let v ← napi.conv (arg info 0).Int32Value 0
      let result ← device_.call (.cameraSetMirrorFlipR v)
      pure (NumberNew result)

/-- The method `GetMirrorFlip`. -/
def GetMirrorFlip (w : DeviceWrapper σ) (_info : List JsValue) : M σ JsValue :=
  match w.device_ with
  | none => pure .null
  | some device_ => do
    let r ← device_.call .cameraGetMirrorFlipR
    if r.1 = 0 then pure (NumberNew r.2) else pure .null

/-! ### AI tracking -/

/-- The method `SetAIEnabled`. -/
def SetAIEnabled (napi : Napi) (w : DeviceWrapper σ) (info : List JsValue) : M σ JsValue :=
  match w.device_ with
  | none => pure (NumberNew (-1))
  | some device_ =>
    if info.length < 1 then pure (NumberNew (-1)) else do
      let v ← napi.conv (arg info 0).BoolValue false
      let result ← device_.call (.aiSetEnabledR v)
      pure (NumberNew result)

/-- The method `SetAIMode`. -/
def SetAIMode (napi : Napi) (w : DeviceWrapper σ) (info : List JsValue) : M σ JsValue :=
  match w.device_ with
  | none => pure (NumberNew (-1))
  | some device_ =>
    if info.length < 2 then pure (NumberNew (-1)) else do
      let a ← napi.conv (arg info 0).Int32Value 0
      let b ← napi.conv (arg info 1).Int32Value 0
      let result ← device_.call (.cameraSetAiModeU a b)
      pure (NumberNew result)

/-- The method `SetTrackingSpeed`. -/
def SetTrackingSpeed (napi : Napi) (w : DeviceWrapper σ) (info : List JsValue) : M σ JsValue :=
  match w.device_ with
  | none => pure (NumberNew (-1))
  | some device_ =>
    if info.length < 1 then pure (NumberNew (-1)) else do
      let v ← napi.conv (arg info 0).Int32Value 0
      let result ← device_.call (.aiSetTrackSpeedTypeR v)
      pure (NumberNew result)

/-- The method `SetAutoZoom`. -/
def SetAutoZoom (napi : Napi) (w : DeviceWrapper σ) (info : List JsValue) : M σ JsValue :=
  match w.device_ with
  | none => pure (NumberNew (-1))
  | some device_ =>
    if info.length < 1 then pure (NumberNew (-1)) else do
      let v ← napi.conv (arg info 0).BoolValue false
      let result ← device_.call (.aiSetAiAutoZoomR v)
      pure (NumberNew result)

/-- The method `SetGestureControl`. -/
def SetGestureControl (napi : Napi) (w : DeviceWrapper σ) (info : List JsValue) : M σ JsValue :=
  match w.device_ with
  | none => pure (NumberNew (-1))
  | some device_ =>
    if info.length < 2 then pure (NumberNew (-1)) else do
      let a ← napi.conv (arg info 0).Int32Value 0
      let b ← napi.conv (arg info 1).BoolValue false
      let result ← device_.call (.aiSetGestureCtrlIndividualR a b)
      pure (NumberNew result)

/-- The method `SelectCentralTarget`. -/
def SelectCentralTarget (w : DeviceWrapper σ) (_info : List JsValue) : M σ JsValue :=
  match w.device_ with
  | none => pure (NumberNew (-1))
  | some device_ => do
    let result ← device_.call .aiSetSelectCentralTarget
    pure (NumberNew result)

/-- The method `SelectBiggestTarget`. -/
def SelectBiggestTarget (w : DeviceWrapper σ) (_info : List JsValue) : M σ JsValue :=
  match w.device_ with
  | none => pure (NumberNew (-1))
  | some device_ => do
    let result ← device_.call .aiSetSelectBiggestTarget
    pure (NumberNew result)

/-- The method `DeselectTarget`. -/
def DeselectTarget (w : DeviceWrapper σ) (_info : List JsValue) : M σ JsValue :=
  match w.device_ with
  | none => pure (NumberNew (-1))
  | some device_ => do
    let result ← device_.call .aiDelSelectedTargetR
    pure (NumberNew result)

/-! ### Device status, anti-flicker -/

/-- The method `SetDeviceRunStatus`. -/
def SetDeviceRunStatus (napi : Napi) (w : DeviceWrapper σ) (info : List JsValue) : M σ JsValue :=
  match w.device_ with
  | none => pure (NumberNew (-1))
  | some device_ =>
    if info.length < 1 then pure (NumberNew (-1)) else do
      let v ← napi.conv (arg info 0).Int32Value 0
      let result ← device_.call (.cameraSetDevRunStatusR v)
      pure (NumberNew result)

/-- The method `SetSleepTimeout`. -/
def SetSleepTimeout (napi : Napi) (w : DeviceWrapper σ) (info : List JsValue) : M σ JsValue :=
  match w.device_ with
  | none => pure (NumberNew (-1))
  | some device_ =>
    if info.length < 1 then pure (NumberNew (-1)) else do
      let v ← napi.conv (arg info 0).Int32Value 0
      let result ← device_.call (.cameraSetSuspendTimeU v)
      pure (NumberNew result)

/-- The method `SetAntiFlicker`. -/
def SetAntiFlicker (napi : Napi) (w : DeviceWrapper σ) (info : List JsValue) : M σ JsValue :=
  match w.device_ with
  | none => pure (NumberNew (-1))
  | some device_ =>
    if info.length < 1 then pure (NumberNew (-1)) else do
      let v ← napi.conv (arg info 0).Int32Value 0
      let result ← device_.call (.cameraSetAntiFlickR v)
      pure (NumberNew result)

/-! ### Camera status -/

/-- The ten `obj.Set` calls that copy a `tiny` status block into the result object. -/
def setTinyFields (obj : JsObject) (t : TinyStatus) : JsObject :=
  let obj := obj.Set "aiMode" (.number t.ai_mode)
  let obj := obj.Set "aiSubMode" (.number t.ai_sub_mode)
  let obj := obj.Set "hdr" (.number t.hdr)
  let obj := obj.Set "fov" (.number t.fov)
  let obj := obj.Set "zoomRatio" (.number t.zoom_ratio)
  let obj := obj.Set "antiFlicker" (.number t.anti_flicker)
  let obj := obj.Set "faceAutoFocus" (.boolean (t.face_auto_focus != 0))
  let obj := obj.Set "autoFocus" (.boolean (t.auto_focus != 0))
  let obj := obj.Set "imageFlipHor" (.boolean (t.image_flip_hor != 0))
  let obj := obj.Set "aiTrackerSpeed" (.number t.ai_tracker_speed)
  obj

/-- The product-type test of `GetCameraStatus`. -/
def isTinySeries (pt : ProductTypes) (productType : Int) : Bool :=
  productType == pt.ObsbotProdTiny2 || productType == pt.ObsbotProdTiny2Lite ||
  productType == pt.ObsbotProdTinySE || productType == pt.ObsbotProdTiny ||
  productType == pt.ObsbotProdTiny4k

/-- The status block of `GetCameraStatus`: live query first, cached snapshot on failure. -/
def cameraStatusBlock (device_ : Device σ) (obj : JsObject) : M σ JsObject := do
  let (result, status) ← device_.call .cameraGetCameraStatusU
  if result = 0 then
    pure (setTinyFields obj status.tiny)
  else do
    let cachedStatus ← device_.call .cameraStatus
    pure (setTinyFields obj cachedStatus.tiny)

/-- The method `GetCameraStatus`. -/
def GetCameraStatus (pt : ProductTypes) (w : DeviceWrapper σ) (_info : List JsValue) :
    M σ JsValue :=
  match w.device_ with
  | none => pure .null
  | some device_ => do
    let obj : JsObject := []
    let productType ← device_.call .productType
    let obj := obj.Set "productType" (.number productType)
    let obj ← if isTinySeries pt productType then cameraStatusBlock device_ obj else pure obj
    let (rcAi, aiStatus) ← device_.call .aiGetAiStatusR
    if rcAi = 0 then
      let obj := obj.Set "gestureTarget" (.boolean aiStatus.gesture_target)
      let obj := obj.Set "gestureZoom" (.boolean aiStatus.gesture_zoom)
      let obj := obj.Set "gestureDynamicZoom" (.boolean aiStatus.gesture_dynamic_zoom)
      pure (.object obj)
    else pure (.object obj)

/-- The binding of each JavaScript method name to its native method, as `Init` registers it. -/
def invoke (napi : Napi) (pt : ProductTypes) (w : DeviceWrapper σ) :
    Method → List JsValue → M σ JsValue
  | .getDeviceName => GetDeviceName w
  | .getSerialNumber => GetSerialNumber w
  | .getProductType => GetProductType w
  | .getVideoDevicePath => GetVideoDevicePath w
  | .getDeviceInfo => GetDeviceInfo w
  | .setGimbalSpeed => SetGimbalSpeed napi w
  | .setGimbalAngle => SetGimbalAngle napi w
  | .stopGimbal => StopGimbal w
  | .resetGimbalPosition => ResetGimbalPosition w
  | .getGimbalState => GetGimbalState w
  | .addPreset => AddPreset w
  | .deletePreset => DeletePreset napi w
  | .triggerPreset => TriggerPreset napi w
  | .getPresetList => GetPresetList w
  | .setBootPosition => SetBootPosition w
  | .triggerBootPosition => TriggerBootPosition w
  | .setZoom => SetZoom napi w
  | .getZoom => GetZoom w
  | .getZoomRange => GetZoomRange w
  | .setFocus => SetFocus napi w
  | .getFocus => GetFocus w
  | .setFaceFocus => SetFaceFocus napi w
  | .getFocusRange => GetFocusRange w
  | .setAutoFocusMode => SetAutoFocusMode napi w
  | .getAutoFocusMode => GetAutoFocusMode w
  | .setExposureMode => SetExposureMode napi w
  | .getExposureMode => GetExposureMode w
  | .setExposure => SetExposure napi w
  | .getExposure => GetExposure w
  | .setAELock => SetAELock napi w
  | .setWhiteBalance => SetWhiteBalance napi w
  | .getWhiteBalance => GetWhiteBalance w
  | .getWhiteBalanceRange => GetWhiteBalanceRange w
  | .setBrightness => SetBrightness napi w
  | .getBrightness => GetBrightness w
  | .setContrast => SetContrast napi w
  | .getContrast => GetContrast w
  | .setSaturation => SetSaturation napi w
  | .getSaturation => GetSaturation w
  | .setSharpness => SetSharpness napi w
  | .getSharpness => GetSharpness w
  | .setHue => SetHue napi w
  | .getHue => GetHue w
  | .setHDR => SetHDR napi w
  | .getHDR => GetHDR w
  | .setFOV => SetFOV napi w
  | .setMirrorFlip => SetMirrorFlip napi w
  | .getMirrorFlip => GetMirrorFlip w
  | .setAIEnabled => SetAIEnabled napi w
  | .setAIMode => SetAIMode napi w
  | .setTrackingSpeed => SetTrackingSpeed napi w
  | .setAutoZoom => SetAutoZoom napi w
  | .setGestureControl => SetGestureControl napi w
  | .selectCentralTarget => SelectCentralTarget w
  | .selectBiggestTarget => SelectBiggestTarget w
  | .deselectTarget => DeselectTarget w
  | .setDeviceRunStatus => SetDeviceRunStatus napi w
  | .setSleepTimeout => SetSleepTimeout napi w
  | .setAntiFlicker => SetAntiFlicker napi w
  | .getCameraStatus => GetCameraStatus pt w

end DeviceWrapper

/-! ## Module state and registry access (obsbot_addon.cpp) -/

/-- The SDK singleton `Devices::get()`, as far as the addon calls it. -/
structure Devices (σ : Type) where
  getDevNum : σ → Int
  getDevList : σ → List (Device σ)
  getDevBySn : String → σ → Option (Device σ)
  setDevChangedCallback : σ → σ
  close : σ → σ

/-- A `Napi::ThreadSafeFunction` that has been created: the JavaScript function it calls,
whether `Release` has run, whether the event loop has torn the function down, the calls
queued for the JavaScript thread (oldest first), and the event objects already handed to
the JavaScript function (oldest first). -/
structure ThreadSafeFunction where
  jsCallback : Nat
  released : Bool
  closed : Bool
  queue : List JsObject
  delivered : List JsObject
  deriving DecidableEq, Repr

/-- The call `Napi::ThreadSafeFunction::New(env, fn, name, 0, 1)`: unbounded queue, one
thread. -/
def ThreadSafeFunction.New (jsCallback : Nat) : ThreadSafeFunction :=
  ⟨jsCallback, false, false, [], []⟩

/-- The call `tsfn.NonBlockingCall(callback)`: the queue is unbounded (max size 0), so the
call is queued as long as the function has not been torn down. `Release` alone does not
tear it down: that happens on the next turn of the event loop. A call on a torn-down
function is undefined in N-API and is taken as rejected. -/
def ThreadSafeFunction.NonBlockingCall (t : ThreadSafeFunction) (event : JsObject) :
    ThreadSafeFunction :=
  if t.closed then t else { t with queue := t.queue ++ [event] }

/-- The call `tsfn.Release()`: the one thread gives the function up. The handle itself
stays as it is. -/
def ThreadSafeFunction.Release (t : ThreadSafeFunction) : ThreadSafeFunction :=
  { t with released := true }

/-- One turn of the event loop on the function: the queued callbacks run in queue order,
each calling the JavaScript function with its event object; a released function is torn
down once its queue is empty. -/
def ThreadSafeFunction.dispatch (t : ThreadSafeFunction) : ThreadSafeFunction :=
  { t with delivered := t.delivered ++ t.queue, queue := [], closed := t.closed || t.released }

/-- A call the module makes into the SDK registry `Devices::get()` or on `tsfn`. -/
inductive Effect where
  | tsfnNew (jsCallback : Nat)
  | setDevChangedCallback
  | devicesClose
  | tsfnRelease
  | getDevList
  | getDevBySn (sn : String)
  deriving DecidableEq, Repr

/-- Process state: the statics `tsfn` (empty until created) and `isInitialized`, the SDK
state, the `DeviceWrapper` objects constructed so far, and the log of the calls made into
the SDK registry and on `tsfn` (oldest first). A JavaScript reference to a wrapper is its
index in `heap`. -/
structure Addon (σ : Type) where
  tsfn : Option ThreadSafeFunction
  isInitialized : Bool
  sdk : σ
  heap : List (DeviceWrapper σ)
  effects : List Effect

/-- The event object built inside the callback of `OnDeviceChanged`. -/
def deviceChangedEvent (devSn : String) (connected : Bool) : JsObject :=
  let event : JsObject := []
  let event := event.Set "serialNumber" (.string devSn)
  let event := event.Set "connected" (.boolean connected)
  event

/-- The function `OnDeviceChanged`, the device-change callback the SDK invokes. -/
def OnDeviceChanged {σ : Type} (devSn : String) (connected : Bool) (a : Addon σ) : Addon σ :=
  match a.tsfn with
  | some t => { a with tsfn := some (t.NonBlockingCall (deviceChangedEvent devSn connected)) }
  | none => a

/-- One turn of the JavaScript event loop, as far as the module is concerned. -/
def Addon.eventLoopTurn {σ : Type} (a : Addon σ) : Addon σ :=
  match a.tsfn with
  | some t => { a with tsfn := some t.dispatch }
  | none => a

/-- The function `Initialize`. -/
def Initialize {σ : Type} (devices : Devices σ) (info : List JsValue) (a : Addon σ) :
    JsValue × Addon σ :=
  if a.isInitialized then (.boolean true, a) else
    let a :=
      if 0 < info.length then
        match arg info 0 with
        | .function f =>
          { a with tsfn := some (ThreadSafeFunction.New f),
                   sdk := devices.setDevChangedCallback a.sdk,
                   effects := a.effects ++ [Effect.tsfnNew f, Effect.setDevChangedCallback] }
        | _ => a
      else a
    (.boolean true, { a with isInitialized := true })

/-- The function `Close`. -/
def Close {σ : Type} (devices : Devices σ) (_info : List JsValue) (a : Addon σ) :
    JsValue × Addon σ :=
  if !a.isInitialized then (.boolean true, a) else
    let a := { a with sdk := devices.close a.sdk, effects := a.effects ++ [Effect.devicesClose] }
    let a :=
      match a.tsfn with
      | some t => { a with tsfn := some t.Release, effects := a.effects ++ [Effect.tsfnRelease] }
      | none => a
    (.boolean true, { a with isInitialized := false })

/-- The function `GetDevices`: one new wrapper per listed device; the result array holds
the references to them, in list order. -/
def GetDevices {σ : Type} (devices : Devices σ) (_info : List JsValue) (a : Addon σ) :
    List Nat × Addon σ :=
  let devList := devices.getDevList a.sdk
  let result := devList.map (fun dev => DeviceWrapper.NewInstance (some dev))
  (List.range' a.heap.length result.length,
    { a with heap := a.heap ++ result, effects := a.effects ++ [Effect.getDevList] })

/-- What `GetDeviceBySerialNumber` hands to JavaScript. -/
inductive Lookup where
  | typeError
  | null
  | wrapper (ref : Nat)
  deriving DecidableEq, Repr

/-- The function `GetDeviceBySerialNumber`. -/
def GetDeviceBySerialNumber {σ : Type} (devices : Devices σ) (info : List JsValue)
    (a : Addon σ) : Lookup × Addon σ :=
  if info.length < 1 then (.typeError, a) else
    match arg info 0 with
    | .string sn =>
      match devices.getDevBySn sn a.sdk with
      | some dev =>
        (.wrapper a.heap.length,
          { a with heap := a.heap ++ [DeviceWrapper.NewInstance (some dev)],
                   effects := a.effects ++ [Effect.getDevBySn sn] })
      | none => (.null, { a with effects := a.effects ++ [Effect.getDevBySn sn] })
    | _ => (.typeError, a)

/-- A method call from JavaScript on the wrapper behind reference `ref`; the SDK state
left by the call is stored back. Nothing is run for a dangling reference. -/
def Addon.callMethod {σ : Type} (napi : Napi) (pt : ProductTypes) (a : Addon σ) (ref : Nat)
    (m : Method) (info : List JsValue) : Option (Run σ × Addon σ) :=
  match a.heap.get? ref with
  | some w =>
    let r := (DeviceWrapper.invoke napi pt w m info).run a.sdk
    some (r, { a with sdk := r.sdk })
  | none => none

/-! ## Simulated SDK objects for concrete runs -/

/-- The reply of a stub device: every call that has a result code answers `rc`, every
out-parameter is zeroed, the identity accessors give the stated serial and product type. -/
def stubReply (rc : Int) (sn : String) (productType : Int) : (c : DriverCall) → c.Reply
  | .devSn => sn
  | .devName | .videoDevPath | .audioDevPath | .devVersion | .devModelCode => ""
  | .productType => productType
  | .cameraStatus => ⟨⟨0, 0, 0, 0, 0, 0, 0, 0, 0, 0⟩⟩
  | .aiGetGimbalStateR => (rc, ⟨0, 0, 0, 0, 0, 0⟩)
  | .aiAddGimbalPresetR => (rc, PresetPosInfo.zero)
  | .aiGetGimbalPresetListR => (rc, ⟨0, fun _ => 0⟩)
  | .aiGetGimbalPresetInfoWithIdR _ => (rc, PresetPosInfo.zero)
  | .cameraGetZoomAbsoluteR => (rc, 0)
  | .cameraGetRangeZoomAbsoluteR | .cameraGetRangeFocusAbsolute
  | .cameraGetRangeWhiteBalanceR => (rc, ⟨0, 0, 0, 0⟩)
  | .cameraGetFocusAbsolute | .cameraGetExposureAbsolute => (rc, 0, false)
  | .cameraGetWhiteBalanceR => (rc, 0, 0)
  | .cameraGetAutoFocusModeR | .cameraGetExposureModeR | .cameraGetImageBrightnessR
  | .cameraGetImageContrastR | .cameraGetImageSaturationR | .cameraGetImageSharpR
  | .cameraGetImageHueR | .cameraGetWdrR | .cameraGetMirrorFlipR => (rc, 0)
  | .cameraGetCameraStatusU => (rc, ⟨⟨0, 0, 0, 0, 0, 0, 0, 0, 0, 0⟩⟩)
  | .aiGetAiStatusR => (rc, ⟨false, false, false⟩)
  | .aiSetGimbalSpeedCtrlR _ _ _ | .aiSetGimbalMotorAngleR _ _ _ | .aiSetGimbalStop
  | .gimbalRstPosR | .aiDelGimbalPresetR _ | .aiTrgGimbalPresetR _ | .aiSetGimbalBootPosR _
  | .aiTrgGimbalBootPosR _ | .cameraSetZoomAbsoluteR _ | .cameraSetFocusAbsolute _ _
  | .cameraSetFaceFocusR _ | .cameraSetAutoFocusModeR _ | .cameraSetExposureModeR _
  | .cameraSetExposureAbsolute _ _ | .cameraSetAELockR _ | .cameraSetWhiteBalanceR _ _
  | .cameraSetImageBrightnessR _ | .cameraSetImageContrastR _ | .cameraSetImageSaturationR _
  | .cameraSetImageSharpR _ | .cameraSetImageHueR _ | .cameraSetWdrR _ | .cameraSetFovU _
  | .cameraSetMirrorFlipR _ | .aiSetEnabledR _ | .cameraSetAiModeU _ _
  | .aiSetTrackSpeedTypeR _ | .aiSetAiAutoZoomR _ | .aiSetGestureCtrlIndividualR _ _
  | .aiSetSelectCentralTarget | .aiSetSelectBiggestTarget | .aiDelSelectedTargetR
  | .cameraSetDevRunStatusR _ | .cameraSetSuspendTimeU _ | .cameraSetAntiFlickR _ => rc

/-- A device that answers every call by `stubReply` and has no state of its own. -/
def stubDevice {σ : Type} (rc : Int) (sn : String) (productType : Int) : Device σ :=
  ⟨fun c s => (stubReply rc sn productType c, s)⟩

/-- A simulated SDK whose state is the list of attached serial numbers. A device object
of serial `sn` answers result code 0 while `sn` is attached and -1 once it is not. -/
def simDevice (sn : String) : Device (List String) :=
  ⟨fun c s => (stubReply (if sn ∈ s then 0 else -1) sn 0 c, s)⟩

/-- The registry of the simulated SDK. -/
def simDevices : Devices (List String) where
  getDevNum s := s.length
  getDevList s := s.map simDevice
  getDevBySn sn s := if sn ∈ s then some (simDevice sn) else none
  setDevChangedCallback s := s
  close s := s

/-- Sample values of the product-type enumerators. -/
def sampleProductTypes : ProductTypes := ⟨0, 1, 2, 3, 4⟩

/-! ## Vocabulary of the facade contract -/

/-- The number of parameters each method requires: three for the two gimbal setters, two
for white balance, AI mode and gesture control, one for every other parameterised method,
none for the getters and the parameterless commands. -/
def Method.requiredParams : Method → Nat
  | .setGimbalSpeed | .setGimbalAngle => 3
  | .setWhiteBalance | .setAIMode | .setGestureControl => 2
  | .deletePreset | .triggerPreset | .setZoom | .setFocus | .setFaceFocus | .setAutoFocusMode
  | .setExposureMode | .setExposure | .setAELock | .setBrightness | .setContrast
  | .setSaturation | .setSharpness | .setHue | .setHDR | .setFOV | .setMirrorFlip
  | .setAIEnabled | .setTrackingSpeed | .setAutoZoom | .setDeviceRunStatus
  | .setSleepTimeout | .setAntiFlicker => 1
  | _ => 0

/-- The JavaScript type a parameter is expected to have. -/
inductive ParamKind where
  | number
  | boolean
  deriving DecidableEq, Repr

/-- Whether a value has the expected type. -/
def ParamKind.accepts : ParamKind → JsValue → Bool
  | .number, .number _ => true
  | .boolean, .boolean _ => true
  | _, _ => false

/-- The expected types of the required parameters of each method, in order. -/
def Method.paramKinds : Method → List ParamKind
  | .setGimbalSpeed | .setGimbalAngle => [.number, .number, .number]
  | .setWhiteBalance | .setAIMode => [.number, .number]
  | .setGestureControl => [.number, .boolean]
  | .setFaceFocus | .setAELock | .setAIEnabled | .setAutoZoom => [.boolean]
  | .deletePreset | .triggerPreset | .setZoom | .setFocus | .setAutoFocusMode
  | .setExposureMode | .setExposure | .setBrightness | .setContrast
  | .setSaturation | .setSharpness | .setHue | .setHDR | .setFOV | .setMirrorFlip
  | .setTrackingSpeed | .setDeviceRunStatus | .setSleepTimeout | .setAntiFlicker => [.number]
  | _ => []

/-- Whether the arguments at positions `i`, `i + 1`, ... have the listed types. -/
def wellTypedFrom (info : List JsValue) : Nat → List ParamKind → Bool
  | _, [] => true
  | i, k :: ks => k.accepts (arg info i) && wellTypedFrom info (i + 1) ks

/-- Whether every required argument of the method has its expected type. -/
def Method.wellTyped (m : Method) (info : List JsValue) : Bool :=
  wellTypedFrom info 0 m.paramKinds

/-- The getters: methods that answer a value or the not-available value. All other
methods are setters and commands, which answer a status number. -/
def Method.isGetter : Method → Bool
  | .getDeviceName | .getSerialNumber | .getProductType | .getVideoDevicePath | .getDeviceInfo
  | .getGimbalState | .getPresetList | .getZoom | .getZoomRange | .getFocus | .getFocusRange
  | .getAutoFocusMode | .getExposureMode | .getExposure | .getWhiteBalance
  | .getWhiteBalanceRange | .getBrightness | .getContrast | .getSaturation | .getSharpness
  | .getHue | .getHDR | .getMirrorFlip | .getCameraStatus => true
  | _ => false

/-- The int32 result code carried by a reply; the accessors have none and count as 0. -/
def DriverCall.resultCode : (c : DriverCall) → c.Reply → Int
  | .devSn, _ | .devName, _ | .videoDevPath, _ | .audioDevPath, _ | .devVersion, _
  | .devModelCode, _ | .productType, _ | .cameraStatus, _ => 0
  | .aiGetGimbalStateR, r | .aiAddGimbalPresetR, r | .aiGetGimbalPresetListR, r
  | .aiGetGimbalPresetInfoWithIdR _, r | .cameraGetZoomAbsoluteR, r
  | .cameraGetRangeZoomAbsoluteR, r | .cameraGetRangeFocusAbsolute, r
  | .cameraGetRangeWhiteBalanceR, r | .cameraGetFocusAbsolute, r
  | .cameraGetExposureAbsolute, r | .cameraGetWhiteBalanceR, r | .cameraGetAutoFocusModeR, r
  | .cameraGetExposureModeR, r | .cameraGetImageBrightnessR, r | .cameraGetImageContrastR, r
  | .cameraGetImageSaturationR, r | .cameraGetImageSharpR, r | .cameraGetImageHueR, r
  | .cameraGetWdrR, r | .cameraGetMirrorFlipR, r | .cameraGetCameraStatusU, r
  | .aiGetAiStatusR, r => r.1
  | .aiSetGimbalSpeedCtrlR _ _ _, r | .aiSetGimbalMotorAngleR _ _ _, r | .aiSetGimbalStop, r
  | .gimbalRstPosR, r | .aiDelGimbalPresetR _, r | .aiTrgGimbalPresetR _, r
  | .aiSetGimbalBootPosR _, r | .aiTrgGimbalBootPosR _, r | .cameraSetZoomAbsoluteR _, r
  | .cameraSetFocusAbsolute _ _, r | .cameraSetFaceFocusR _, r | .cameraSetAutoFocusModeR _, r
  | .cameraSetExposureModeR _, r | .cameraSetExposureAbsolute _ _, r | .cameraSetAELockR _, r
  | .cameraSetWhiteBalanceR _ _, r | .cameraSetImageBrightnessR _, r
  | .cameraSetImageContrastR _, r | .cameraSetImageSaturationR _, r
  | .cameraSetImageSharpR _, r | .cameraSetImageHueR _, r | .cameraSetWdrR _, r
  | .cameraSetFovU _, r | .cameraSetMirrorFlipR _, r | .aiSetEnabledR _, r
  | .cameraSetAiModeU _ _, r | .aiSetTrackSpeedTypeR _, r | .aiSetAiAutoZoomR _, r
  | .aiSetGestureCtrlIndividualR _ _, r | .aiSetSelectCentralTarget, r
  | .aiSetSelectBiggestTarget, r | .aiDelSelectedTargetR, r | .cameraSetDevRunStatusR _, r
  | .cameraSetSuspendTimeU _, r | .cameraSetAntiFlickR _, r => r

/-- The result code of a completed driver call. -/
def Exchange.resultCode (x : Exchange) : Int := x.call.resultCode x.reply

/-- The object carries the ten status fields with the values of the given status block. -/
def HasTinyFields (obj : JsObject) (t : TinyStatus) : Prop :=
  obj.Get "aiMode" = some (.number t.ai_mode) ∧
  obj.Get "aiSubMode" = some (.number t.ai_sub_mode) ∧
  obj.Get "hdr" = some (.number t.hdr) ∧
  obj.Get "fov" = some (.number t.fov) ∧
  obj.Get "zoomRatio" = some (.number t.zoom_ratio) ∧
  obj.Get "antiFlicker" = some (.number t.anti_flicker) ∧
  obj.Get "faceAutoFocus" = some (.boolean (t.face_auto_focus != 0)) ∧
  obj.Get "autoFocus" = some (.boolean (t.auto_focus != 0)) ∧
  obj.Get "imageFlipHor" = some (.boolean (t.image_flip_hor != 0)) ∧
  obj.Get "aiTrackerSpeed" = some (.number t.ai_tracker_speed)

/-- The product types of the Tiny family. -/
def ProductTypes.tinyFamily (pt : ProductTypes) : List Int :=
  [pt.ObsbotProdTiny, pt.ObsbotProdTiny4k, pt.ObsbotProdTiny2, pt.ObsbotProdTiny2Lite,
   pt.ObsbotProdTinySE]

/-- The ten status properties, in the order `GetCameraStatus` sets them. -/
def tinyProps (t : TinyStatus) : JsObject :=
  [("aiMode", .number t.ai_mode), ("aiSubMode", .number t.ai_sub_mode),
   ("hdr", .number t.hdr), ("fov", .number t.fov), ("zoomRatio", .number t.zoom_ratio),
   ("antiFlicker", .number t.anti_flicker),
   ("faceAutoFocus", .boolean (t.face_auto_focus != 0)),
   ("autoFocus", .boolean (t.auto_focus != 0)),
   ("imageFlipHor", .boolean (t.image_flip_hor != 0)),
   ("aiTrackerSpeed", .number t.ai_tracker_speed)]

/-- The gesture properties, present when the AI status query answered 0. -/
def gestureProps (rc : Int) (ai : AiStatus) : JsObject :=
  if rc = 0 then
    [("gestureTarget", .boolean ai.gesture_target), ("gestureZoom", .boolean ai.gesture_zoom),
     ("gestureDynamicZoom", .boolean ai.gesture_dynamic_zoom)]
  else []

/-- The contract of a getter that makes one live round trip `c`: an unbound wrapper
answers null without a driver call; a bound one makes exactly the call `c` and answers
`value` of the reply when the result code is 0 and null otherwise; `value` is never null. -/
def LiveGetter {σ : Type} (getter : DeviceWrapper σ → List JsValue → M σ JsValue)
    (c : DriverCall) (value : c.Reply → JsValue) : Prop :=
  (∀ reply, value reply ≠ .null) ∧
  ∀ (info : List JsValue) (s : σ),
    ((getter ⟨none⟩ info).run s).outcome = .returned .null ∧
    ((getter ⟨none⟩ info).run s).calls = [] ∧
    ∀ d : Device σ,
      ((getter ⟨some d⟩ info).run s).calls = [⟨c, (d.exec c s).1⟩] ∧
      ((getter ⟨some d⟩ info).run s).outcome =
        .returned (if c.resultCode (d.exec c s).1 = 0 then value (d.exec c s).1 else .null)

/-- A session of the simulated SDK with the device SN123 attached and a registered handler. -/
def simAddon : Addon (List String) :=
  { tsfn := some (ThreadSafeFunction.New 0), isInitialized := true, sdk := ["SN123"],
    heap := [], effects := [] }

/-- A hot-unplug in the simulated SDK: the device leaves the list, then the SDK raises
the device-changed callback with connected = false. -/
def simDetach (sn : String) (a : Addon (List String)) : Addon (List String) :=
  OnDeviceChanged sn false { a with sdk := a.sdk.erase sn }

/-- The range of an `int32_t`. -/
def isInt32 (i : Int) : Prop := -2147483648 ≤ i ∧ i < 2147483648

instance (i : Int) : Decidable (isInt32 i) := by unfold isInt32; infer_instance

/-- A stub device whose add-preset call answers the code `rc` and writes the id `id`. -/
def presetStub (rc : Int) (id : Int) : Device Unit :=
  ⟨fun c s =>
    (match c with
     | .aiAddGimbalPresetR => (rc, { PresetPosInfo.zero with id := id })
     | c => stubReply rc "SN123" 0 c, s)⟩

/-- The test `info[0].IsString()`. -/
def JsValue.IsString : JsValue → Bool
  | .string _ => true
  | _ => false

/-- A step of the notification bridge: the SDK raises the device-changed callback, or the
JavaScript event loop takes a turn. -/
inductive BridgeStep where
  | notify (devSn : String) (connected : Bool)
  | loopTurn
  deriving DecidableEq, Repr

/-- The effect of one bridge step on the process state. -/
def Addon.step {σ : Type} (a : Addon σ) : BridgeStep → Addon σ
  | .notify devSn connected => OnDeviceChanged devSn connected a
  | .loopTurn => a.eventLoopTurn

/-- The effect of a schedule of bridge steps, first step first. -/
def Addon.steps {σ : Type} (a : Addon σ) (schedule : List BridgeStep) : Addon σ :=
  schedule.foldl Addon.step a

/-- The event payloads the contract expects for a schedule: one object per notification,
carrying its serial number and its connected flag, in the order of the notifications. -/
def expectedEvents : List BridgeStep → List JsObject
  | [] => []
  | .notify devSn connected :: rest =>
    [("serialNumber", .string devSn), ("connected", .boolean connected)] :: expectedEvents rest
  | .loopTurn :: rest => expectedEvents rest

/-- A fresh process of the simulated SDK: nothing initialized, the device SN123 attached. -/
def simFresh : Addon (List String) :=
  { tsfn := none, isInitialized := false, sdk := ["SN123"], heap := [], effects := [] }

/-- The names of the ten status fields of the camera-status object. -/
def tinyFieldNames : List String :=
  ["aiMode", "aiSubMode", "hdr", "fov", "zoomRatio", "antiFlicker", "faceAutoFocus",
   "autoFocus", "imageFlipHor", "aiTrackerSpeed"]

/-! ### What a setter sends when a conversion has failed -/

/-- An int32 argument as it reaches the driver in the build without C++ exceptions: the
converted value, or 0 when the conversion failed. -/
def JsValue.int32OrZero (v : JsValue) : Int := v.Int32Value.getD 0

/-- A double argument, or 0 when the conversion failed. -/
def JsValue.doubleOrZero (v : JsValue) : Rat := v.DoubleValue.getD 0

/-- A float argument, or 0 when the conversion failed. -/
def JsValue.floatOrZero (v : JsValue) : Float32 := v.FloatValue.getD ⟨0⟩

/-- A bool argument, or false when the conversion failed. -/
def JsValue.boolOrFalse (v : JsValue) : Bool := v.BoolValue.getD false

/-- The SDK function each parameterised setter is written to call, with its arguments
taken from `info` in the order the setter passes them and the zero value standing for
every argument whose conversion fails. -/
def Method.setterCall (m : Method) (info : List JsValue) : Option DriverCall :=
  match m with
  | .setGimbalSpeed =>
    some (.aiSetGimbalSpeedCtrlR (arg info 0).doubleOrZero (arg info 1).doubleOrZero
      (arg info 2).doubleOrZero)
  | .setGimbalAngle =>
    some (.aiSetGimbalMotorAngleR (arg info 0).floatOrZero (arg info 1).floatOrZero
      (arg info 2).floatOrZero)
  | .deletePreset => some (.aiDelGimbalPresetR (arg info 0).int32OrZero)
  | .triggerPreset => some (.aiTrgGimbalPresetR (arg info 0).int32OrZero)
  | .setZoom => some (.cameraSetZoomAbsoluteR (arg info 0).floatOrZero)
  | .setFocus => some (.cameraSetFocusAbsolute (arg info 0).int32OrZero false)
  | .setFaceFocus => some (.cameraSetFaceFocusR (arg info 0).boolOrFalse)
  | .setAutoFocusMode => some (.cameraSetAutoFocusModeR (arg info 0).int32OrZero)
  | .setExposureMode => some (.cameraSetExposureModeR (arg info 0).int32OrZero)
  | .setExposure => some (.cameraSetExposureAbsolute (arg info 0).int32OrZero false)
  | .setAELock => some (.cameraSetAELockR (arg info 0).boolOrFalse)
  | .setWhiteBalance =>
    some (.cameraSetWhiteBalanceR (arg info 0).int32OrZero (arg info 1).int32OrZero)
  | .setBrightness => some (.cameraSetImageBrightnessR (arg info 0).int32OrZero)
  | .setContrast => some (.cameraSetImageContrastR (arg info 0).int32OrZero)
  | .setSaturation => some (.cameraSetImageSaturationR (arg info 0).int32OrZero)
  | .setSharpness => some (.cameraSetImageSharpR (arg info 0).int32OrZero)
  | .setHue => some (.cameraSetImageHueR (arg info 0).int32OrZero)
  | .setHDR => some (.cameraSetWdrR (arg info 0).int32OrZero)
  | .setFOV => some (.cameraSetFovU (arg info 0).int32OrZero)
  | .setMirrorFlip => some (.cameraSetMirrorFlipR (arg info 0).int32OrZero)
  | .setAIEnabled => some (.aiSetEnabledR (arg info 0).boolOrFalse)
  | .setAIMode => some (.cameraSetAiModeU (arg info 0).int32OrZero (arg info 1).int32OrZero)
  | .setTrackingSpeed => some (.aiSetTrackSpeedTypeR (arg info 0).int32OrZero)
  | .setAutoZoom => some (.aiSetAiAutoZoomR (arg info 0).boolOrFalse)
  | .setGestureControl =>
    some (.aiSetGestureCtrlIndividualR (arg info 0).int32OrZero (arg info 1).boolOrFalse)
  | .setDeviceRunStatus => some (.cameraSetDevRunStatusR (arg info 0).int32OrZero)
  | .setSleepTimeout => some (.cameraSetSuspendTimeU (arg info 0).int32OrZero)
  | .setAntiFlicker => some (.cameraSetAntiFlickR (arg info 0).int32OrZero)
  | _ => none

/-! ### The int32 conversion, as ECMAScript words it -/

/-- The integer part of a finite number: the integer `t` on the same side of zero as `x`
with `|t| ≤ |x| < |t| + 1`. -/
def IsTruncation (x : Rat) (t : Int) : Prop :=
  |(t : Rat)| ≤ |x| ∧ |x| < |(t : Rat)| + 1 ∧ 0 ≤ (t : Rat) * x

/-- The number `x` wraps to the id `j`: `j` is in the int32 range and differs from the
integer part of `x` by a multiple of 2^32. -/
def WrapsToInt32 (x : Rat) (j : Int) : Prop :=
  isInt32 j ∧ ∃ t : Int, IsTruncation x t ∧ (4294967296 : Int) ∣ j - t

/-! ## Shared lemmas -/

/-- A value is a number, or every numeric conversion of it fails. -/
theorem number_cases (v : JsValue) :
    (∃ x, v = .number x) ∨
    (ParamKind.number.accepts v = false ∧ v.Int32Value = none ∧ v.DoubleValue = none ∧
      v.FloatValue = none) := by
  cases v <;>
    simp [JsValue.Int32Value, JsValue.DoubleValue, JsValue.FloatValue, ParamKind.accepts]

/-- A value is a boolean, or its boolean conversion fails. -/
theorem boolean_cases (v : JsValue) :
    (∃ b, v = .boolean b) ∨ (ParamKind.boolean.accepts v = false ∧ v.BoolValue = none) := by
  cases v <;> simp [JsValue.BoolValue, ParamKind.accepts]

/-- A number is accepted where a number is expected. -/
theorem accepts_number (x : Rat) : ParamKind.number.accepts (.number x) = true := rfl

/-- A boolean is accepted where a boolean is expected. -/
theorem accepts_boolean (b : Bool) : ParamKind.boolean.accepts (.boolean b) = true := rfl

/-! ## Parameter count and unbound handles -/

open DeviceWrapper

/-- C1. A parameterised method called with fewer arguments than it requires returns -1
and makes no driver call, on a bound and on an unbound wrapper alike. -/
theorem setter_short_args_invalid_argument {σ : Type} (napi : Napi) (pt : ProductTypes)
    (w : DeviceWrapper σ) (m : Method) (info : List JsValue) (s : σ)
    (h : info.length < m.requiredParams) :
    ((invoke napi pt w m info).run s).outcome = .returned (.number (-1)) ∧
    ((invoke napi pt w m info).run s).calls = [] := by
  rcases w with ⟨_ | d⟩ <;> cases m <;>
    first
    | (exact absurd h (Nat.not_lt_zero _))
    | (simp only [Method.requiredParams] at h
       simp only [invoke,
         SetGimbalSpeed, SetGimbalAngle, SetWhiteBalance, SetAIMode, SetGestureControl,
         SetFaceFocus, SetAELock, SetAIEnabled, SetAutoZoom, DeletePreset, TriggerPreset,
         SetZoom, SetFocus, SetAutoFocusMode, SetExposureMode, SetExposure, SetBrightness,
         SetContrast, SetSaturation, SetSharpness, SetHue, SetHDR, SetFOV, SetMirrorFlip,
         SetTrackingSpeed, SetDeviceRunStatus, SetSleepTimeout, SetAntiFlicker, if_pos h]
       exact ⟨rfl, rfl⟩)

/-- C1, at a concrete call: setGimbalSpeed with two of its three arguments on a bound
device. -/
theorem setter_short_args_invalid_argument_witness :
    [JsValue.number 1, JsValue.number 2].length < Method.setGimbalSpeed.requiredParams ∧
    ((invoke ⟨true⟩ sampleProductTypes ⟨some (stubDevice 0 "SN123" 0)⟩ .setGimbalSpeed
        [.number 1, .number 2]).run ()).outcome = .returned (.number (-1)) ∧
    ((invoke ⟨true⟩ sampleProductTypes ⟨some (stubDevice 0 "SN123" 0)⟩ .setGimbalSpeed
        [.number 1, .number 2]).run ()).calls = [] :=
  ⟨by decide,
   setter_short_args_invalid_argument ⟨true⟩ sampleProductTypes
     ⟨some (stubDevice 0 "SN123" 0)⟩ .setGimbalSpeed [.number 1, .number 2] () (by decide)⟩

/-- C2. On a wrapper with no device every method returns before any driver call: the
getters answer null, the setters and commands answer -1, whatever the arguments. -/
theorem unbound_wrapper_no_driver_call {σ : Type} (napi : Napi) (pt : ProductTypes)
    (m : Method) (info : List JsValue) (s : σ) :
    ((invoke napi pt (⟨none⟩ : DeviceWrapper σ) m info).run s).calls = [] ∧
    ((invoke napi pt (⟨none⟩ : DeviceWrapper σ) m info).run s).outcome =
      .returned (if m.isGetter then .null else .number (-1)) := by
  cases m <;> exact ⟨rfl, rfl⟩

/-! ## Status codes of the setters -/

/-- C4, refuted as stated: setZoom("abc") on a bound device is not answered by the status
-1 without a driver call. In either build flavour the call ends in a JavaScript exception,
and without C++ exceptions the driver is called, with the zero value. -/
theorem malformed_arg_not_invalid_argument :
    ((invoke ⟨true⟩ sampleProductTypes ⟨some (stubDevice 0 "SN123" 0)⟩ .setZoom
        [.string "abc"]).run ()).outcome = .threw ∧
    ((invoke ⟨false⟩ sampleProductTypes ⟨some (stubDevice 0 "SN123" 0)⟩ .setZoom
        [.string "abc"]).run ()).outcome = .threw ∧
    ((invoke ⟨false⟩ sampleProductTypes ⟨some (stubDevice 0 "SN123" 0)⟩ .setZoom
        [.string "abc"]).run ()).calls.map (fun x => x.call) =
      [.cameraSetZoomAbsoluteR ⟨0⟩] :=
  ⟨rfl, rfl, rfl⟩

/-- C4, amended. A parameterised setter on a bound handle with enough arguments, one of
them of the wrong type, does not return a status: the failing conversion raises a
JavaScript exception. With C++ exceptions no driver call is made; without them every
failing conversion yields the zero value and the one driver call of the setter is still
made: the call is the setter's SDK function, on the converted arguments with 0 or false in
place of each argument that failed to convert, and it is logged with the driver's reply. -/
theorem malformed_arg_raises {σ : Type} (napi : Napi) (pt : ProductTypes) (d : Device σ)
    (m : Method) (info : List JsValue) (s : σ) (hlen : m.requiredParams ≤ info.length)
    (hbad : m.wellTyped info = false) :
    ((invoke napi pt ⟨some d⟩ m info).run s).outcome = .threw ∧
    ((invoke napi pt ⟨some d⟩ m info).run s).calls.length =
      (if napi.cppExceptions then 0 else 1) ∧
    (napi.cppExceptions = true → ((invoke napi pt ⟨some d⟩ m info).run s).calls = []) ∧
    (napi.cppExceptions = false →
      ∃ c : DriverCall, m.setterCall info = some c ∧
        ((invoke napi pt ⟨some d⟩ m info).run s).calls = [⟨c, (d.exec c s).1⟩]) := by
  cases m
  case setGimbalSpeed | setGimbalAngle =>
    have hg : ¬ info.length < 3 := Nat.not_lt.mpr hlen
    simp only [invoke, Method.setterCall, JsValue.int32OrZero, JsValue.doubleOrZero,
      JsValue.floatOrZero, JsValue.boolOrFalse,
      SetGimbalSpeed, SetGimbalAngle, if_neg hg]
    rcases napi with ⟨_ | _⟩ <;>
    rcases number_cases (arg info 0) with ⟨x0, h0⟩ | ⟨k0, i0, d0, f0⟩ <;>
    rcases number_cases (arg info 1) with ⟨x1, h1⟩ | ⟨k1, i1, d1, f1⟩ <;>
    rcases number_cases (arg info 2) with ⟨x2, h2⟩ | ⟨k2, i2, d2, f2⟩ <;>
    first
    | (simp only [*]
       exact ⟨rfl, rfl, fun h => Bool.noConfusion h, fun _ => ⟨_, rfl, rfl⟩⟩)
    | (simp only [*]
       exact ⟨rfl, rfl, fun _ => rfl, fun h => Bool.noConfusion h⟩)
    | (simp [*, Method.wellTyped, Method.paramKinds, wellTypedFrom, accepts_number,
         accepts_boolean] at hbad)

  case setWhiteBalance | setAIMode =>
    have hg : ¬ info.length < 2 := Nat.not_lt.mpr hlen
    simp only [invoke, Method.setterCall, JsValue.int32OrZero, JsValue.doubleOrZero,
      JsValue.floatOrZero, JsValue.boolOrFalse,
      SetWhiteBalance, SetAIMode, if_neg hg]
    rcases napi with ⟨_ | _⟩ <;>
    rcases number_cases (arg info 0) with ⟨x0, h0⟩ | ⟨k0, i0, d0, f0⟩ <;>
    rcases number_cases (arg info 1) with ⟨x1, h1⟩ | ⟨k1, i1, d1, f1⟩ <;>
    first
    | (simp only [*]
       exact ⟨rfl, rfl, fun h => Bool.noConfusion h, fun _ => ⟨_, rfl, rfl⟩⟩)
    | (simp only [*]
       exact ⟨rfl, rfl, fun _ => rfl, fun h => Bool.noConfusion h⟩)
    | (simp [*, Method.wellTyped, Method.paramKinds, wellTypedFrom, accepts_number,
         accepts_boolean] at hbad)

  case setGestureControl =>
    have hg : ¬ info.length < 2 := Nat.not_lt.mpr hlen
    simp only [invoke, Method.setterCall, JsValue.int32OrZero, JsValue.doubleOrZero,
      JsValue.floatOrZero, JsValue.boolOrFalse,
      SetGestureControl, if_neg hg]
    rcases napi with ⟨_ | _⟩ <;>
    rcases number_cases (arg info 0) with ⟨x0, h0⟩ | ⟨k0, i0, d0, f0⟩ <;>
    rcases boolean_cases (arg info 1) with ⟨x1, h1⟩ | ⟨k1, b1⟩ <;>
    first
    | (simp only [*]
       exact ⟨rfl, rfl, fun h => Bool.noConfusion h, fun _ => ⟨_, rfl, rfl⟩⟩)
    | (simp only [*]
       exact ⟨rfl, rfl, fun _ => rfl, fun h => Bool.noConfusion h⟩)
    | (simp [*, Method.wellTyped, Method.paramKinds, wellTypedFrom, accepts_number,
         accepts_boolean] at hbad)

  case setFaceFocus | setAELock | setAIEnabled | setAutoZoom =>
    have hg : ¬ info.length < 1 := Nat.not_lt.mpr hlen
    simp only [invoke, Method.setterCall, JsValue.int32OrZero, JsValue.doubleOrZero,
      JsValue.floatOrZero, JsValue.boolOrFalse,
      SetFaceFocus, SetAELock, SetAIEnabled, SetAutoZoom, if_neg hg]
    rcases napi with ⟨_ | _⟩ <;>
    rcases boolean_cases (arg info 0) with ⟨x0, h0⟩ | ⟨k0, b0⟩ <;>
    first
    | (simp only [*]
       exact ⟨rfl, rfl, fun h => Bool.noConfusion h, fun _ => ⟨_, rfl, rfl⟩⟩)
    | (simp only [*]
       exact ⟨rfl, rfl, fun _ => rfl, fun h => Bool.noConfusion h⟩)
    | (simp [*, Method.wellTyped, Method.paramKinds, wellTypedFrom, accepts_number,
         accepts_boolean] at hbad)

  case deletePreset | triggerPreset | setZoom | setFocus | setAutoFocusMode | setExposureMode |
       setExposure | setBrightness | setContrast | setSaturation | setSharpness | setHue |
       setHDR | setFOV | setMirrorFlip | setTrackingSpeed | setDeviceRunStatus |
       setSleepTimeout | setAntiFlicker =>
    have hg : ¬ info.length < 1 := Nat.not_lt.mpr hlen
    simp only [invoke, Method.setterCall, JsValue.int32OrZero, JsValue.doubleOrZero,
      JsValue.floatOrZero, JsValue.boolOrFalse,
      DeletePreset, TriggerPreset, SetZoom, SetFocus, SetAutoFocusMode, SetExposureMode,
      SetExposure, SetBrightness, SetContrast, SetSaturation, SetSharpness, SetHue, SetHDR,
      SetFOV, SetMirrorFlip, SetTrackingSpeed, SetDeviceRunStatus, SetSleepTimeout,
      SetAntiFlicker, if_neg hg]
    rcases napi with ⟨_ | _⟩ <;>
    rcases number_cases (arg info 0) with ⟨x0, h0⟩ | ⟨k0, i0, d0, f0⟩ <;>
    first
    | (simp only [*]
       exact ⟨rfl, rfl, fun h => Bool.noConfusion h, fun _ => ⟨_, rfl, rfl⟩⟩)
    | (simp only [*]
       exact ⟨rfl, rfl, fun _ => rfl, fun h => Bool.noConfusion h⟩)
    | (simp [*, Method.wellTyped, Method.paramKinds, wellTypedFrom, accepts_number,
         accepts_boolean] at hbad)

  all_goals exact Bool.noConfusion hbad

/-- C4 amended, at a concrete call in the build without C++ exceptions:
setWhiteBalance(3, "warm"), a string where the second number is expected. The call ends in
a JavaScript exception and the driver is called once, with 3 and 0. -/
theorem malformed_arg_raises_witness :
    Method.setWhiteBalance.requiredParams ≤ [JsValue.number 3, JsValue.string "warm"].length ∧
    Method.setWhiteBalance.wellTyped [.number 3, .string "warm"] = false ∧
    ((invoke ⟨false⟩ sampleProductTypes ⟨some (stubDevice 0 "SN123" 0)⟩ .setWhiteBalance
        [.number 3, .string "warm"]).run ()).outcome = .threw ∧
    Method.setWhiteBalance.setterCall [.number 3, .string "warm"] =
      some (.cameraSetWhiteBalanceR 3 0) ∧
    ((invoke ⟨false⟩ sampleProductTypes ⟨some (stubDevice 0 "SN123" 0)⟩ .setWhiteBalance
        [.number 3, .string "warm"]).run ()).calls =
      [⟨.cameraSetWhiteBalanceR 3 0,
        ((stubDevice 0 "SN123" 0 : Device Unit).exec (.cameraSetWhiteBalanceR 3 0) ()).1⟩] := by
  have h := malformed_arg_raises ⟨false⟩ sampleProductTypes
    (stubDevice 0 "SN123" 0 : Device Unit) .setWhiteBalance [.number 3, .string "warm"] ()
    (by decide) (by decide)
  have hc : Method.setWhiteBalance.setterCall [.number 3, .string "warm"] =
      some (.cameraSetWhiteBalanceR 3 0) := by
    simp [Method.setterCall, arg, JsValue.int32OrZero, JsValue.Int32Value, toInt32]
  obtain ⟨c, h1, h2⟩ := h.2.2.2 rfl
  rw [hc] at h1
  cases h1
  exact ⟨by decide, by decide, h.1, hc, h2⟩

/-! ## Wrappers held across a detach -/

/-- A method call through a reference runs the method of the referenced wrapper. -/
theorem callMethod_fst {σ : Type} (napi : Napi) (pt : ProductTypes) (a : Addon σ)
    (ref : Nat) (m : Method) (info : List JsValue) :
    (a.callMethod napi pt ref m info).map Prod.fst =
      (a.heap.get? ref).map (fun w => (invoke napi pt w m info).run a.sdk) := by
  unfold Addon.callMethod
  cases a.heap.get? ref <;> rfl

/-- The element right after a prefix. -/
theorem get?_after_prefix {β : Type} (pre : List β) (y : β) (rest : List β) :
    (pre ++ y :: rest).get? pre.length = some y := by
  induction pre with
  | nil => rfl
  | cons p pre ih => simpa using ih

/-- The references handed out for freshly appended objects point at those objects. -/
theorem get?_fresh_refs {α β : Type} (f : α → β) (l : List α) :
    ∀ pre : List β,
      (List.range' pre.length l.length).map (fun r => (pre ++ l.map f).get? r) =
        l.map (fun x => some (f x)) := by
  induction l with
  | nil => intro pre; rfl
  | cons x l ih =>
    intro pre
    have h := ih (pre ++ [f x])
    simp only [List.length_append, List.length_singleton, List.append_assoc,
      List.singleton_append] at h
    simp only [List.length_cons, List.range'_succ, List.map_cons, h, get?_after_prefix]

/-- The device-changed callback leaves the wrapper objects and the SDK state alone. -/
theorem OnDeviceChanged_frame {σ : Type} (sn : String) (connected : Bool) (a : Addon σ) :
    (OnDeviceChanged sn connected a).heap = a.heap ∧
    (OnDeviceChanged sn connected a).sdk = a.sdk := by
  unfold OnDeviceChanged
  cases a.tsfn <;> exact ⟨rfl, rfl⟩

/-- C5, refuted as stated: in the simulated SDK, a wrapper obtained from getDevices while
SN123 was attached is used after the detach notification for SN123. stopGimbal still calls
the driver, and getSerialNumber still answers the serial number instead of null. -/
theorem held_wrapper_after_detach_calls_driver :
    (GetDevices simDevices [] simAddon).1 = [0] ∧
    (((simDetach "SN123" (GetDevices simDevices [] simAddon).2).callMethod ⟨true⟩
        sampleProductTypes 0 .stopGimbal []).map
      (fun r => r.1.calls.map (fun x => x.call))) = some [.aiSetGimbalStop] ∧
    (((simDetach "SN123" (GetDevices simDevices [] simAddon).2).callMethod ⟨true⟩
        sampleProductTypes 0 .getSerialNumber []).map
      (fun r => r.1.outcome)) = some (.returned (.string "SN123")) :=
  ⟨rfl, rfl, rfl⟩

/-- C5, amended. A wrapper keeps the device object it was created with. After getDevices,
whatever the SDK state becomes and whichever device-changed notification then runs, a
method called on the wrapper made for a listed device runs exactly as on a bound wrapper
of that device object in the new SDK state; the same holds for the wrapper returned by
getDeviceBySerialNumber. -/
theorem held_wrapper_stays_bound {σ : Type} (napi : Napi) (pt : ProductTypes)
    (devices : Devices σ) (a : Addon σ) (args : List JsValue) (sn : String) (connected : Bool)
    (sdk2 : σ) (m : Method) (info : List JsValue) :
    ((GetDevices devices args a).1.map (fun ref =>
        ((OnDeviceChanged sn connected
          { (GetDevices devices args a).2 with sdk := sdk2 }).callMethod
            napi pt ref m info).map Prod.fst)) =
      (devices.getDevList a.sdk).map (fun dev =>
        some ((invoke napi pt ⟨some dev⟩ m info).run sdk2)) ∧
    (match (GetDeviceBySerialNumber devices args a).1 with
     | .wrapper ref =>
       ∃ key dev, arg args 0 = .string key ∧ devices.getDevBySn key a.sdk = some dev ∧
         ((OnDeviceChanged sn connected
            { (GetDeviceBySerialNumber devices args a).2 with sdk := sdk2 }).callMethod
              napi pt ref m info).map Prod.fst =
           some ((invoke napi pt ⟨some dev⟩ m info).run sdk2)
     | _ => True) := by
  constructor
  · simp only [callMethod_fst, OnDeviceChanged_frame]
    have h := get?_fresh_refs (fun dev => DeviceWrapper.NewInstance (some dev))
      (devices.getDevList a.sdk) a.heap
    have h2 := congrArg (List.map (Option.map
      (fun w => (invoke napi pt w m info).run sdk2))) h
    simp only [List.map_map] at h2
    simpa [GetDevices, Function.comp_def, NewInstance, SetDevice] using h2
  · unfold GetDeviceBySerialNumber
    split_ifs with hlen
    · trivial
    · cases hk : arg args 0 with
      | string key =>
        dsimp only
        cases hd : devices.getDevBySn key a.sdk with
        | none => trivial
        | some dev =>
          dsimp only
          refine ⟨key, dev, rfl, hd, ?_⟩
          simp [callMethod_fst, OnDeviceChanged_frame, NewInstance, SetDevice]
      | _ => trivial

/-! ## Camera status -/

/-- The product-type test of `GetCameraStatus` is membership in the Tiny family. -/
theorem isTinySeries_iff (pt : ProductTypes) (x : Int) :
    isTinySeries pt x = true ↔ x ∈ pt.tinyFamily := by
  simp only [isTinySeries, ProductTypes.tinyFamily, Bool.or_eq_true, beq_iff_eq,
    List.mem_cons, List.mem_singleton, List.not_mem_nil, or_false]
  tauto

/-- Symbolic run of `GetCameraStatus` on a bound wrapper. -/
theorem GetCameraStatus_bound {σ : Type} (pt : ProductTypes) (d : Device σ)
    (info : List JsValue) (s : σ) :
    (GetCameraStatus pt ⟨some d⟩ info).run s =
      let p := d.exec .productType s
      if isTinySeries pt p.1 = true then
        let live := d.exec .cameraGetCameraStatusU p.2
        if live.1.1 = 0 then
          let ai := d.exec .aiGetAiStatusR live.2
          ⟨.returned (.object (("productType", .number p.1) :: tinyProps live.1.2.tiny ++
              gestureProps ai.1.1 ai.1.2)),
            [⟨.productType, p.1⟩, ⟨.cameraGetCameraStatusU, live.1⟩, ⟨.aiGetAiStatusR, ai.1⟩],
            ai.2⟩
        else
          let cached := d.exec .cameraStatus live.2
          let ai := d.exec .aiGetAiStatusR cached.2
          ⟨.returned (.object (("productType", .number p.1) :: tinyProps cached.1.tiny ++
              gestureProps ai.1.1 ai.1.2)),
            [⟨.productType, p.1⟩, ⟨.cameraGetCameraStatusU, live.1⟩, ⟨.cameraStatus, cached.1⟩,
             ⟨.aiGetAiStatusR, ai.1⟩],
            ai.2⟩
      else
        let ai := d.exec .aiGetAiStatusR p.2
        ⟨.returned (.object (("productType", .number p.1) :: gestureProps ai.1.1 ai.1.2)),
          [⟨.productType, p.1⟩, ⟨.aiGetAiStatusR, ai.1⟩], ai.2⟩ := by
  simp only [GetCameraStatus, cameraStatusBlock, M.run, M.bind, bind, pure, Device.call]
  split_ifs <;>
    simp only [*, M.bind, Device.call, if_true, if_false, reduceIte] <;>
    split_ifs <;>
    simp [*, setTinyFields, JsObject.Set, tinyProps, gestureProps]

/-- The ten status properties can be read back from an object that starts with the product
type, continues with them and ends with the gesture properties. -/
theorem hasTinyFields_props (v : Prim) (t : TinyStatus) (rest : JsObject) :
    HasTinyFields (("productType", v) :: tinyProps t ++ rest) t := by
  simp [HasTinyFields, JsObject.Get, tinyProps]

/-- C6. On a bound device of the Tiny family `GetCameraStatus` reads the product type and
then issues the live status query. When the query answers 0 the ten status fields come
from the live payload and the cached snapshot is not read (the only further call is the AI
status query); otherwise the cached snapshot is read next and the ten fields come from it. -/
theorem camera_status_live_then_cached {σ : Type} (pt : ProductTypes) (d : Device σ)
    (info : List JsValue) (s : σ)
    (hTiny : (d.exec .productType s).1 ∈ pt.tinyFamily) :
    let r := (GetCameraStatus pt ⟨some d⟩ info).run s
    let live := d.exec .cameraGetCameraStatusU (d.exec .productType s).2
    (live.1.1 = 0 →
      r.calls.map (fun x => x.call) =
        [.productType, .cameraGetCameraStatusU, .aiGetAiStatusR] ∧
      ∃ obj, r.outcome = .returned (.object obj) ∧ HasTinyFields obj live.1.2.tiny) ∧
    (live.1.1 ≠ 0 →
      r.calls.map (fun x => x.call) =
        [.productType, .cameraGetCameraStatusU, .cameraStatus, .aiGetAiStatusR] ∧
      ∃ obj, r.outcome = .returned (.object obj) ∧
        HasTinyFields obj (d.exec .cameraStatus live.2).1.tiny) := by
  have ht := (isTinySeries_iff pt _).2 hTiny
  intro r live
  have hr : r = (GetCameraStatus pt ⟨some d⟩ info).run s := rfl
  rw [GetCameraStatus_bound] at hr
  simp only [ht, if_true] at hr
  constructor
  · intro h0
    rw [if_pos h0] at hr
    rw [hr]
    exact ⟨rfl, _, rfl, hasTinyFields_props _ _ _⟩
  · intro h0
    rw [if_neg h0] at hr
    rw [hr]
    exact ⟨rfl, _, rfl, hasTinyFields_props _ _ _⟩

/-- C6, at a concrete device: a Tiny2 whose driver answers 0 to every query. -/
theorem camera_status_live_then_cached_witness :
    ((stubDevice 0 "SN123" 2 : Device Unit).exec .productType ()).1 ∈
      sampleProductTypes.tinyFamily ∧
    (let r := (GetCameraStatus sampleProductTypes
        ⟨some (stubDevice 0 "SN123" 2 : Device Unit)⟩ []).run ()
     let live := (stubDevice 0 "SN123" 2 : Device Unit).exec .cameraGetCameraStatusU
        (((stubDevice 0 "SN123" 2 : Device Unit).exec .productType ()).2)
     (live.1.1 = 0 →
       r.calls.map (fun x => x.call) =
         [.productType, .cameraGetCameraStatusU, .aiGetAiStatusR] ∧
       ∃ obj, r.outcome = .returned (.object obj) ∧ HasTinyFields obj live.1.2.tiny) ∧
     (live.1.1 ≠ 0 →
       r.calls.map (fun x => x.call) =
         [.productType, .cameraGetCameraStatusU, .cameraStatus, .aiGetAiStatusR] ∧
       ∃ obj, r.outcome = .returned (.object obj) ∧
         HasTinyFields obj
           ((stubDevice 0 "SN123" 2 : Device Unit).exec .cameraStatus live.2).1.tiny)) :=
  ⟨by decide,
   camera_status_live_then_cached sampleProductTypes (stubDevice 0 "SN123" 2) [] ()
     (by decide)⟩

/-- C7, refuted as stated: a Tiny whose live status query fails (code 1) and whose cached
snapshot was never filled (it is the zeroed struct) does not get null from
`GetCameraStatus`, but an object carrying the ten fields of the zeroed snapshot. -/
theorem camera_status_unfilled_cache_not_null :
    ((GetCameraStatus sampleProductTypes ⟨some (stubDevice 1 "SN123" 0 : Device Unit)⟩
        []).run ()).outcome =
      .returned (.object (("productType", .number 0) ::
        tinyProps ⟨0, 0, 0, 0, 0, 0, 0, 0, 0, 0⟩)) ∧
    ((GetCameraStatus sampleProductTypes ⟨some (stubDevice 1 "SN123" 0 : Device Unit)⟩
        []).run ()).outcome ≠ .returned .null := by
  have h : ((GetCameraStatus sampleProductTypes
      ⟨some (stubDevice 1 "SN123" 0 : Device Unit)⟩ []).run ()).outcome =
      .returned (.object (("productType", .number 0) ::
        tinyProps ⟨0, 0, 0, 0, 0, 0, 0, 0, 0, 0⟩)) := by
    rw [GetCameraStatus_bound]
    rfl
  refine ⟨h, ?_⟩
  rw [h]
  simp

/-- C7, amended. When the live status query of a bound Tiny-family device fails,
`GetCameraStatus` does not answer null: it answers an object whose ten status fields are
whatever the cached snapshot holds, filled or not. The code has no notion of an unfilled
cache. -/
theorem camera_status_failed_live_uses_cache {σ : Type} (pt : ProductTypes) (d : Device σ)
    (info : List JsValue) (s : σ)
    (hTiny : (d.exec .productType s).1 ∈ pt.tinyFamily)
    (hfail : (d.exec .cameraGetCameraStatusU (d.exec .productType s).2).1.1 ≠ 0) :
    ((GetCameraStatus pt ⟨some d⟩ info).run s).outcome ≠ .returned .null ∧
    ∃ obj, ((GetCameraStatus pt ⟨some d⟩ info).run s).outcome = .returned (.object obj) ∧
      HasTinyFields obj (d.exec .cameraStatus
        (d.exec .cameraGetCameraStatusU (d.exec .productType s).2).2).1.tiny := by
  have ht := (isTinySeries_iff pt _).2 hTiny
  rw [GetCameraStatus_bound]
  simp only [ht, if_true, if_neg hfail]
  exact ⟨by simp, _, rfl, hasTinyFields_props _ _ _⟩

/-- C7 amended, at a concrete device: a Tiny whose driver answers 1 to every query. -/
theorem camera_status_failed_live_uses_cache_witness :
    ((stubDevice 1 "SN123" 0 : Device Unit).exec .productType ()).1 ∈
      sampleProductTypes.tinyFamily ∧
    ((stubDevice 1 "SN123" 0 : Device Unit).exec .cameraGetCameraStatusU
      ((stubDevice 1 "SN123" 0 : Device Unit).exec .productType ()).2).1.1 ≠ 0 ∧
    ((GetCameraStatus sampleProductTypes ⟨some (stubDevice 1 "SN123" 0 : Device Unit)⟩
        []).run ()).outcome ≠ .returned .null ∧
    ∃ obj, ((GetCameraStatus sampleProductTypes
        ⟨some (stubDevice 1 "SN123" 0 : Device Unit)⟩ []).run ()).outcome =
          .returned (.object obj) ∧
      HasTinyFields obj ((stubDevice 1 "SN123" 0 : Device Unit).exec .cameraStatus
        ((stubDevice 1 "SN123" 0 : Device Unit).exec .cameraGetCameraStatusU
          ((stubDevice 1 "SN123" 0 : Device Unit).exec .productType ()).2).2).1.tiny :=
  ⟨by decide, by decide,
   camera_status_failed_live_uses_cache sampleProductTypes (stubDevice 1 "SN123" 0) [] ()
     (by decide) (by decide)⟩

/-- C8. getZoom, getGimbalState and each single-value getter answer null exactly when the
wrapper is unbound or the one driver query returns a non-zero code; when the query returns
0 they answer the value the driver wrote, as a number (or, for the gimbal state, as an
object of six numbers), also when that value is zero. -/
theorem live_getters_null_iff_unavailable {σ : Type} :
    LiveGetter (σ := σ) GetZoom .cameraGetZoomAbsoluteR (fun r => .number r.2) ∧
    LiveGetter (σ := σ) GetGimbalState .aiGetGimbalStateR (fun r => .object
      [("pitch", .number r.2.pitch_euler), ("yaw", .number r.2.yaw_euler),
       ("roll", .number r.2.roll_euler), ("motorPitch", .number r.2.pitch_motor),
       ("motorYaw", .number r.2.yaw_motor), ("motorRoll", .number r.2.roll_motor)]) ∧
    LiveGetter (σ := σ) GetFocus .cameraGetFocusAbsolute (fun r => .number r.2.1) ∧
    LiveGetter (σ := σ) GetAutoFocusMode .cameraGetAutoFocusModeR (fun r => .number r.2) ∧
    LiveGetter (σ := σ) GetExposureMode .cameraGetExposureModeR (fun r => .number r.2) ∧
    LiveGetter (σ := σ) GetExposure .cameraGetExposureAbsolute (fun r => .number r.2.1) ∧
    LiveGetter (σ := σ) GetBrightness .cameraGetImageBrightnessR (fun r => .number r.2) ∧
    LiveGetter (σ := σ) GetContrast .cameraGetImageContrastR (fun r => .number r.2) ∧
    LiveGetter (σ := σ) GetSaturation .cameraGetImageSaturationR (fun r => .number r.2) ∧
    LiveGetter (σ := σ) GetSharpness .cameraGetImageSharpR (fun r => .number r.2) ∧
    LiveGetter (σ := σ) GetHue .cameraGetImageHueR (fun r => .number r.2) ∧
    LiveGetter (σ := σ) GetHDR .cameraGetWdrR (fun r => .number r.2) ∧
    LiveGetter (σ := σ) GetMirrorFlip .cameraGetMirrorFlipR (fun r => .number r.2) := by
  refine ⟨?_, ?_, ?_, ?_, ?_, ?_, ?_, ?_, ?_, ?_, ?_, ?_, ?_⟩ <;>
    refine ⟨fun _ => by simp, fun info s => ⟨rfl, rfl, fun d => ?_⟩⟩
  all_goals
    simp only [GetZoom, GetGimbalState, GetFocus, GetAutoFocusMode, GetExposureMode,
      GetExposure, GetBrightness, GetContrast, GetSaturation, GetSharpness, GetHue, GetHDR,
      GetMirrorFlip, M.run, M.bind, bind, pure, Device.call, DriverCall.resultCode, NumberNew]
    split_ifs <;> simp_all [JsObject.Set]

/-! ## Preset list -/

/-- One loop iteration of `GetPresetList` always completes, raises nothing, and only adds
to the call log. -/
theorem presetEntry_ok {σ : Type} (d : Device σ) (ids : DevDataArray) (i : Nat) (ctx : Ctx σ) :
    ∃ preset ctx2 more, presetEntry d ids i ctx = .ok preset ctx2 ∧
      ctx2.pending = ctx.pending ∧ ctx2.calls = ctx.calls ++ more := by
  simp only [presetEntry, M.bind, bind, pure, Device.call]
  split_ifs <;> exact ⟨_, _, _, rfl, rfl, rfl⟩

/-- The loop of `GetPresetList` always completes, raises nothing, only adds to the call
log, and fills one array slot per iteration. -/
theorem presetLoop_ok {σ : Type} (d : Device σ) (ids : DevDataArray) :
    ∀ (n i : Nat) (ctx : Ctx σ), ∃ arr ctx2 more,
      presetLoop d ids i n ctx = .ok arr ctx2 ∧ ctx2.pending = ctx.pending ∧
      ctx2.calls = ctx.calls ++ more ∧ arr.length = n := by
  intro n
  induction n with
  | zero => intro i ctx; exact ⟨[], ctx, [], rfl, rfl, by simp, rfl⟩
  | succ n ih =>
    intro i ctx
    obtain ⟨preset, c1, m1, h1, p1, l1⟩ := presetEntry_ok d ids i ctx
    obtain ⟨arr, c2, m2, h2, p2, l2, hl⟩ := ih (i + 1) c1
    refine ⟨preset :: arr, c2, m1 ++ m2, ?_, p2.trans p1, by simp [l2, l1], by simp [hl]⟩
    simp only [presetLoop, M.bind, bind, pure, h1, h2]

/-- C10, refuted as stated: on a bound device whose preset-id-list query fails (code 1)
`GetPresetList` answers null, not a list. -/
theorem preset_list_null_when_list_query_fails :
    ((GetPresetList ⟨some (stubDevice 1 "SN123" 0 : Device Unit)⟩ []).run ()).outcome =
      .returned .null :=
  rfl

/-- C10, amended. `GetPresetList` answers null on an unbound handle. On a bound handle it
first issues the preset-id-list query; it answers null when that query returns a non-zero
code, and a list with one entry per id when it returns 0, whatever the per-id info queries
return. -/
theorem preset_list_null_iff_list_query_fails {σ : Type} (d : Device σ)
    (info : List JsValue) (s : σ) :
    ((GetPresetList (⟨none⟩ : DeviceWrapper σ) info).run s).outcome = .returned .null ∧
    ∃ (arr : List JsObject) (rest : List Exchange),
      arr.length = (d.exec .aiGetGimbalPresetListR s).1.2.len ∧
      ((GetPresetList ⟨some d⟩ info).run s).calls =
        ⟨.aiGetGimbalPresetListR, (d.exec .aiGetGimbalPresetListR s).1⟩ :: rest ∧
      ((GetPresetList ⟨some d⟩ info).run s).outcome =
        .returned (if (d.exec .aiGetGimbalPresetListR s).1.1 = 0 then .array arr else .null) := by
  refine ⟨rfl, ?_⟩
  obtain ⟨arr, c2, more, h2, p2, l2, hl⟩ :=
    presetLoop_ok d (d.exec .aiGetGimbalPresetListR s).1.2
      (d.exec .aiGetGimbalPresetListR s).1.2.len 0
      ⟨(d.exec .aiGetGimbalPresetListR s).2,
        [⟨.aiGetGimbalPresetListR, (d.exec .aiGetGimbalPresetListR s).1⟩], false⟩
  simp only [] at p2 l2
  by_cases h0 : (d.exec .aiGetGimbalPresetListR s).1.1 = 0
  · refine ⟨arr, more, hl, ?_, ?_⟩ <;>
      simp [GetPresetList, M.run, M.bind, bind, pure, Device.call, h0, h2, p2, l2]
  · refine ⟨arr, [], hl, ?_, ?_⟩ <;>
      simp [GetPresetList, M.run, M.bind, bind, pure, Device.call, h0]

/-! ## Preset list entries -/

/-- C13, refuted as stated: the number 7 is returned both by a device whose add-preset call
succeeds and assigns the id 7 and by a device whose add-preset call fails with code 7. -/
theorem add_preset_id_and_failure_collide :
    (presetStub 0 7).exec .aiAddGimbalPresetR () = ((0, { PresetPosInfo.zero with id := 7 }), ()) ∧
    ((AddPreset ⟨some (presetStub 0 7)⟩ []).run ()).outcome = .returned (.number 7) ∧
    ((presetStub 7 0).exec .aiAddGimbalPresetR ()).1.1 = 7 ∧
    ((AddPreset ⟨some (presetStub 7 0)⟩ []).run ()).outcome = .returned (.number 7) :=
  ⟨rfl, rfl, rfl, rfl⟩

/-- C13, amended. On a bound handle `AddPreset` issues exactly one add-preset driver call.
When the driver answers 0 it returns the id the driver wrote, and when the driver answers
a non-zero code it returns that code unchanged. -/
theorem add_preset_returns_id_or_code {σ : Type} (d : Device σ) (info : List JsValue)
    (s : σ) :
    ((AddPreset ⟨some d⟩ info).run s).calls =
      [⟨.aiAddGimbalPresetR, (d.exec .aiAddGimbalPresetR s).1⟩] ∧
    ((AddPreset ⟨some d⟩ info).run s).outcome =
      .returned (NumberNew (if (d.exec .aiAddGimbalPresetR s).1.1 = 0
        then (d.exec .aiAddGimbalPresetR s).1.2.id else (d.exec .aiAddGimbalPresetR s).1.1)) := by
  simp only [AddPreset, M.run, M.bind, bind, pure, Device.call]
  split_ifs <;> simp [*]

/-- A number has one integer part. -/
theorem isTruncation_unique (x : Rat) (t u : Int) (ht : IsTruncation x t)
    (hu : IsTruncation x u) : t = u := by
  obtain ⟨t1, t2, t3⟩ := ht
  obtain ⟨u1, u2, u3⟩ := hu
  have h1 : |(t : Rat)| < |(u : Rat)| + 1 := lt_of_le_of_lt t1 u2
  have h2 : |(u : Rat)| < |(t : Rat)| + 1 := lt_of_le_of_lt u1 t2
  have h3 : |t| < |u| + 1 := by exact_mod_cast h1
  have h4 : |u| < |t| + 1 := by exact_mod_cast h2
  have h5 : |t| = |u| := by omega
  rcases abs_eq_abs.1 h5 with h | h
  · exact h
  · subst h
    push_cast at t3
    have hz : (u : Rat) * x = 0 := by linarith
    rcases mul_eq_zero.1 hz with h0 | h0
    · have : u = 0 := by exact_mod_cast h0
      simp [this]
    · subst h0
      simp at u1
      simp [u1]

/-- A number wraps to one id only. -/
theorem wrapsToInt32_unique (x : Rat) (j k : Int) (hj : WrapsToInt32 x j)
    (hk : WrapsToInt32 x k) : j = k := by
  obtain ⟨⟨j1, j2⟩, t, ht, hjt⟩ := hj
  obtain ⟨⟨k1, k2⟩, u, hu, hku⟩ := hk
  have := isTruncation_unique x t u ht hu
  subst this
  omega

/-- After `Initialize` the session is initialized, whatever it was before. -/
theorem Initialize_isInitialized {σ : Type} (devices : Devices σ) (info : List JsValue)
    (a : Addon σ) : (Initialize devices info a).2.isInitialized = true := by
  unfold Initialize
  by_cases h : a.isInitialized = true
  · simp [h]
  · simp [h]

/-- After `Close` the session is not initialized, whatever it was before. -/
theorem Close_isInitialized {σ : Type} (devices : Devices σ) (info : List JsValue)
    (a : Addon σ) : (Close devices info a).2.isInitialized = false := by
  unfold Close
  by_cases h : a.isInitialized = true
  · simp [h]
  · simp [h]

/-- C15. `Initialize` on an initialized session returns true and leaves the whole process
state as it is, whatever the arguments: the handler is not replaced and nothing is
registered with the SDK. Hence a second `Initialize` right after a first one changes
nothing. -/
theorem initialize_idempotent {σ : Type} (devices : Devices σ) (a b : Addon σ)
    (info info1 info2 : List JsValue) (h : a.isInitialized = true) :
    Initialize devices info a = (.boolean true, a) ∧
    Initialize devices info2 (Initialize devices info1 b).2 =
      (.boolean true, (Initialize devices info1 b).2) := by
  constructor
  · simp [Initialize, h]
  · have hb := Initialize_isInitialized devices info1 b
    generalize (Initialize devices info1 b).2 = c at hb
    simp [Initialize, hb]

/-- C15, at a concrete session: a second initialize that supplies another callback. -/
theorem initialize_idempotent_witness :
    simAddon.isInitialized = true ∧
    Initialize simDevices [.function 9] simAddon = (.boolean true, simAddon) ∧
    Initialize simDevices [.function 9] (Initialize simDevices [.function 7] simFresh).2 =
      (.boolean true, (Initialize simDevices [.function 7] simFresh).2) :=
  ⟨rfl, initialize_idempotent simDevices simAddon simFresh [.function 9] [.function 7]
    [.function 9] rfl⟩

/-- C16. `Close` on a session that is not initialized returns true and leaves the whole
process state as it is: no SDK close, no release. Hence a second `Close` right after a
first one changes nothing, and closing an initialized session with a handler twice calls
the SDK close once and releases the handler once. -/
theorem close_idempotent {σ : Type} (devices : Devices σ) (a b : Addon σ)
    (t : ThreadSafeFunction) (info info1 info2 : List JsValue)
    (h : a.isInitialized = false) (hb : b.isInitialized = true) (ht : b.tsfn = some t) :
    Close devices info a = (.boolean true, a) ∧
    Close devices info2 (Close devices info1 b).2 =
      (.boolean true, (Close devices info1 b).2) ∧
    (Close devices info2 (Close devices info1 b).2).2.effects =
      b.effects ++ [.devicesClose, .tsfnRelease] ∧
    (Close devices info2 (Close devices info1 b).2).2.tsfn = some t.Release := by
  have h2 : Close devices info2 (Close devices info1 b).2 =
      (.boolean true, (Close devices info1 b).2) := by
    have hc := Close_isInitialized devices info1 b
    generalize (Close devices info1 b).2 = c at hc
    simp [Close, hc]
  refine ⟨by simp [Close, h], h2, ?_, ?_⟩
  · rw [h2]
    simp [Close, hb, ht]
  · rw [h2]
    simp [Close, hb, ht]

/-- C16, at a concrete session: the simulated session with its handler, closed twice. -/
theorem close_idempotent_witness :
    simFresh.isInitialized = false ∧ simAddon.isInitialized = true ∧
    simAddon.tsfn = some (ThreadSafeFunction.New 0) ∧
    Close simDevices [] simFresh = (.boolean true, simFresh) ∧
    Close simDevices [] (Close simDevices [] simAddon).2 =
      (.boolean true, (Close simDevices [] simAddon).2) ∧
    (Close simDevices [] (Close simDevices [] simAddon).2).2.effects =
      simAddon.effects ++ [.devicesClose, .tsfnRelease] ∧
    (Close simDevices [] (Close simDevices [] simAddon).2).2.tsfn =
      some (ThreadSafeFunction.New 0).Release :=
  ⟨rfl, rfl, rfl,
   close_idempotent simDevices simFresh simAddon (ThreadSafeFunction.New 0) [] [] []
     rfl rfl rfl⟩

/-- C17, the code at the failing input: initialize with the handler 7, close, then a
hot-plug notification. `Close` releases the function but leaves the static `tsfn` set, so
`OnDeviceChanged` passes its test and queues a call for the released handler; the next
turn of the event loop hands the event to handler 7. -/
theorem notification_after_close_reaches_handler :
    (Close simDevices [] (Initialize simDevices [.function 7] simFresh).2).2.tsfn =
      some ⟨7, true, false, [], []⟩ ∧
    (OnDeviceChanged "SN123" false
      (Close simDevices [] (Initialize simDevices [.function 7] simFresh).2).2).tsfn =
      some ⟨7, true, false,
        [[("serialNumber", .string "SN123"), ("connected", .boolean false)]], []⟩ ∧
    ((OnDeviceChanged "SN123" false
      (Close simDevices [] (Initialize simDevices [.function 7]
        simFresh).2).2).eventLoopTurn).tsfn =
      some ⟨7, true, true, [],
        [[("serialNumber", .string "SN123"), ("connected", .boolean false)]]⟩ := by
  refine ⟨rfl, ?_, ?_⟩ <;>
    simp [OnDeviceChanged, Addon.eventLoopTurn, Close, Initialize, simFresh, simDevices,
      ThreadSafeFunction.New, ThreadSafeFunction.Release, ThreadSafeFunction.NonBlockingCall,
      ThreadSafeFunction.dispatch, deviceChangedEvent, JsObject.Set, arg]

/-- C18, the code at the failing input: initialize with the handler 7, close, initialize
without a callback. The restarted session still holds the released handler 7 in `tsfn`,
while the same initialize on a fresh session leaves `tsfn` empty. -/
theorem restart_without_callback_keeps_old_handler :
    (Initialize simDevices [] (Close simDevices []
      (Initialize simDevices [.function 7] simFresh).2).2).2.tsfn =
      some ⟨7, true, false, [], []⟩ ∧
    (Initialize simDevices [] simFresh).2.tsfn = none :=
  ⟨rfl, rfl⟩

/-! ## Lookup by serial number -/

/-- C19. `GetDeviceBySerialNumber` with a string argument queries the registry once: when
the registry holds a device under that serial number it returns a new wrapper bound to
exactly that device object, and when it holds none it returns null and creates nothing.
A call with no argument or with a non-string first argument raises the type error instead,
and leaves the whole process state as it is, so the registry is not queried. -/
theorem lookup_by_serial_number {σ : Type} (devices : Devices σ) (a : Addon σ)
    (sn : String) (v : JsValue) (rest : List JsValue) (hv : v.IsString = false) :
    (match devices.getDevBySn sn a.sdk with
     | some dev =>
       (GetDeviceBySerialNumber devices (.string sn :: rest) a).1 = .wrapper a.heap.length ∧
       (GetDeviceBySerialNumber devices (.string sn :: rest) a).2.heap.get? a.heap.length =
         some ⟨some dev⟩
     | none =>
       (GetDeviceBySerialNumber devices (.string sn :: rest) a).1 = .null ∧
       (GetDeviceBySerialNumber devices (.string sn :: rest) a).2.heap = a.heap) ∧
    (GetDeviceBySerialNumber devices (.string sn :: rest) a).2.effects =
      a.effects ++ [.getDevBySn sn] ∧
    GetDeviceBySerialNumber devices [] a = (.typeError, a) ∧
    GetDeviceBySerialNumber devices (v :: rest) a = (.typeError, a) := by
  refine ⟨?_, ?_, rfl, ?_⟩
  · cases hd : devices.getDevBySn sn a.sdk with
    | none => simp [GetDeviceBySerialNumber, arg, hd]
    | some dev =>
      simp [GetDeviceBySerialNumber, arg, hd, DeviceWrapper.NewInstance,
        DeviceWrapper.SetDevice, DeviceWrapper.new]
  · cases hd : devices.getDevBySn sn a.sdk <;> simp [GetDeviceBySerialNumber, arg, hd]
  · cases v <;> first | rfl | exact Bool.noConfusion hv

/-- C19, at a concrete session: SN123 is attached in the simulated SDK, and the number 5
is not a serial number. -/
theorem lookup_by_serial_number_witness :
    (JsValue.number 5).IsString = false ∧
    (GetDeviceBySerialNumber simDevices [.string "SN123"] simAddon).1 = .wrapper 0 ∧
    (GetDeviceBySerialNumber simDevices [.string "SN999"] simAddon).1 = .null ∧
    GetDeviceBySerialNumber simDevices [.number 5] simAddon = (.typeError, simAddon) := by
  have h1 := lookup_by_serial_number simDevices simAddon "SN123" (.number 5) [] rfl
  have h2 := lookup_by_serial_number simDevices simAddon "SN999" (.number 5) [] rfl
  exact ⟨rfl, h1.1.1, h2.1.1, h1.2.2.2⟩

/-! ## Notification bridge -/

/-- The event object of `OnDeviceChanged` has the two properties of the payload. -/
theorem deviceChangedEvent_eq (devSn : String) (connected : Bool) :
    deviceChangedEvent devSn connected =
      [("serialNumber", .string devSn), ("connected", .boolean connected)] := by
  simp [deviceChangedEvent, JsObject.Set]

/-- C20. While a handler is registered (the function exists and is neither released nor
torn down), every schedule of notifications and event-loop turns keeps the handler and
keeps the events in the order of the notifications: what has been delivered followed by
what is queued is what it was before followed by one event per notification, each with the
serial number and connected flag of its notification. Without loop turns the queue grows
by exactly these events, and one more loop turn delivers everything queued, in order. -/
theorem notifications_delivered_in_order {σ : Type} (a : Addon σ) (t : ThreadSafeFunction)
    (schedule : List BridgeStep)
    (ht : a.tsfn = some t) (hr : t.released = false) (hc : t.closed = false) :
    ∃ t2 : ThreadSafeFunction,
      (a.steps schedule).tsfn = some t2 ∧
      t2.jsCallback = t.jsCallback ∧ t2.released = false ∧ t2.closed = false ∧
      t2.delivered ++ t2.queue = t.delivered ++ t.queue ++ expectedEvents schedule ∧
      ((∀ step ∈ schedule, step ≠ .loopTurn) →
        t2.delivered = t.delivered ∧ t2.queue = t.queue ++ expectedEvents schedule) ∧
      ∃ t3 : ThreadSafeFunction,
        ((a.steps schedule).eventLoopTurn).tsfn = some t3 ∧ t3.queue = [] ∧
        t3.delivered = t.delivered ++ t.queue ++ expectedEvents schedule := by
  induction schedule generalizing a t with
  | nil =>
    refine ⟨t, ht, rfl, hr, hc, by simp [expectedEvents], fun _ => by simp [expectedEvents],
      t.dispatch, ?_, rfl, ?_⟩
    · simp [Addon.steps, Addon.eventLoopTurn, ht]
    · simp [ThreadSafeFunction.dispatch, expectedEvents]
  | cons st rest ih =>
    cases st with
    | notify devSn connected =>
      have ht1 : (OnDeviceChanged devSn connected a).tsfn =
          some { t with queue := t.queue ++
            [[("serialNumber", .string devSn), ("connected", .boolean connected)]] } := by
        simp [OnDeviceChanged, ht, ThreadSafeFunction.NonBlockingCall, hc,
          deviceChangedEvent_eq]
      obtain ⟨t2, h1, h2, h3, h4, h5, h6, t3, h7, h8, h9⟩ := ih _ _ ht1 hr hc
      refine ⟨t2, h1, h2, h3, h4, ?_, ?_, t3, h7, h8, ?_⟩
      · simpa [expectedEvents] using h5
      · intro hno
        have := h6 (fun step hs => hno step (List.mem_cons_of_mem _ hs))
        simpa [expectedEvents] using this
      · simpa [expectedEvents] using h9
    | loopTurn =>
      have ht1 : (a.eventLoopTurn).tsfn = some t.dispatch := by
        simp [Addon.eventLoopTurn, ht]
      obtain ⟨t2, h1, h2, h3, h4, h5, _, t3, h7, h8, h9⟩ := ih _ _ ht1
        (by simp [ThreadSafeFunction.dispatch, hr])
        (by simp [ThreadSafeFunction.dispatch, hr, hc])
      refine ⟨t2, h1, h2, h3, h4, ?_, ?_, t3, h7, h8, ?_⟩
      · simpa [expectedEvents, ThreadSafeFunction.dispatch] using h5
      · intro hno
        exact absurd rfl (hno .loopTurn (List.mem_cons_self _ _))
      · simpa [expectedEvents, ThreadSafeFunction.dispatch] using h9

/-- C20, at a concrete burst: attach and immediate detach of SN123, before the consumer
has processed either. Both events are queued, and the loop turn delivers them in order,
the detach last. -/
theorem notifications_delivered_in_order_witness :
    simAddon.tsfn = some (ThreadSafeFunction.New 0) ∧
    (ThreadSafeFunction.New 0).released = false ∧ (ThreadSafeFunction.New 0).closed = false ∧
    ∃ t3 : ThreadSafeFunction,
      ((simAddon.steps [.notify "SN123" true, .notify "SN123" false]).eventLoopTurn).tsfn =
        some t3 ∧
      t3.queue = [] ∧
      t3.delivered =
        [[("serialNumber", .string "SN123"), ("connected", .boolean true)],
         [("serialNumber", .string "SN123"), ("connected", .boolean false)]] := by
  obtain ⟨_, _, _, _, _, _, _, t3, h7, h8, h9⟩ :=
    notifications_delivered_in_order simAddon (ThreadSafeFunction.New 0)
      [.notify "SN123" true, .notify "SN123" false] rfl rfl rfl
  exact ⟨rfl, rfl, rfl, t3, h7, h8, by simpa [expectedEvents, ThreadSafeFunction.New] using h9⟩

/-! ## Camera status outside the Tiny family -/

/-- C22. On a bound device whose product type is none of Tiny, Tiny4k, Tiny2, Tiny2Lite and
TinySE, `GetCameraStatus` makes two driver calls only, the product-type read and the AI
status query: neither the live status query nor the read of the cached snapshot is issued.
The object it answers has productType and none of the ten status fields. -/
theorem camera_status_other_families {σ : Type} (pt : ProductTypes) (d : Device σ)
    (info : List JsValue) (s : σ)
    (hOther : (d.exec .productType s).1 ∉ pt.tinyFamily) :
    ((GetCameraStatus pt ⟨some d⟩ info).run s).calls =
      [⟨.productType, (d.exec .productType s).1⟩,
       ⟨.aiGetAiStatusR, (d.exec .aiGetAiStatusR (d.exec .productType s).2).1⟩] ∧
    ∃ obj : JsObject,
      ((GetCameraStatus pt ⟨some d⟩ info).run s).outcome = .returned (.object obj) ∧
      obj.Get "productType" = some (.number (d.exec .productType s).1) ∧
      ∀ key ∈ tinyFieldNames, obj.Has key = false := by
  have ht : ¬ isTinySeries pt (d.exec .productType s).1 = true :=
    fun h => hOther ((isTinySeries_iff pt _).1 h)
  rw [GetCameraStatus_bound]
  simp only [ht, if_false]
  refine ⟨rfl, _, rfl, by simp [JsObject.Get], ?_⟩
  by_cases h : (d.exec .aiGetAiStatusR (d.exec .productType s).2).1.1 = 0 <;>
    simp [tinyFieldNames, JsObject.Has, gestureProps, h]

/-- C22, at a concrete device: product type 7, which is not in the sample Tiny family. -/
theorem camera_status_other_families_witness :
    ((stubDevice 0 "SN123" 7 : Device Unit).exec .productType ()).1 ∉
      sampleProductTypes.tinyFamily ∧
    ((GetCameraStatus sampleProductTypes ⟨some (stubDevice 0 "SN123" 7 : Device Unit)⟩
        []).run ()).calls =
      [⟨.productType, ((stubDevice 0 "SN123" 7 : Device Unit).exec .productType ()).1⟩,
       ⟨.aiGetAiStatusR, ((stubDevice 0 "SN123" 7 : Device Unit).exec .aiGetAiStatusR
          ((stubDevice 0 "SN123" 7 : Device Unit).exec .productType ()).2).1⟩] ∧
    ∃ obj : JsObject,
      ((GetCameraStatus sampleProductTypes ⟨some (stubDevice 0 "SN123" 7 : Device Unit)⟩
          []).run ()).outcome = .returned (.object obj) ∧
      obj.Get "productType" =
        some (.number ((stubDevice 0 "SN123" 7 : Device Unit).exec .productType ()).1) ∧
      ∀ key ∈ tinyFieldNames, obj.Has key = false :=
  ⟨by decide,
   camera_status_other_families sampleProductTypes (stubDevice 0 "SN123" 7) [] ()
     (by decide)⟩

/-! ## Registry reads

The registry is the SDK singleton: the module never inserts into it or removes from it,
and its own mutex is taken by its two readers only. What the module adds is stated here
for one call at a time. -/

/-- Notifications and event-loop turns leave the SDK state, the wrapper objects and the
log of registry calls as they are. -/
theorem steps_frame {σ : Type} (schedule : List BridgeStep) :
    ∀ a : Addon σ, (a.steps schedule).sdk = a.sdk ∧ (a.steps schedule).heap = a.heap ∧
      (a.steps schedule).effects = a.effects := by
  induction schedule with
  | nil => intro a; exact ⟨rfl, rfl, rfl⟩
  | cons st rest ih =>
    intro a
    have h1 : (a.step st).sdk = a.sdk ∧ (a.step st).heap = a.heap ∧
        (a.step st).effects = a.effects := by
      cases st with
      | notify devSn connected =>
        simp only [Addon.step, OnDeviceChanged]
        cases a.tsfn <;> exact ⟨rfl, rfl, rfl⟩
      | loopTurn =>
        simp only [Addon.step, Addon.eventLoopTurn]
        cases a.tsfn <;> exact ⟨rfl, rfl, rfl⟩
    have h2 := ih (a.step st)
    simp only [Addon.steps, List.foldl_cons] at h2 ⊢
    exact ⟨h2.1.trans h1.1, h2.2.1.trans h1.2.1, h2.2.2.trans h1.2.2⟩

/-- One `GetDevices` call reads the registry list once, leaves the SDK state as it is, and
hands out one new wrapper per listed device, in list order, each bound to its device. -/
theorem GetDevices_lists_registry {σ : Type} (devices : Devices σ) (info : List JsValue)
    (a : Addon σ) :
    (GetDevices devices info a).2.sdk = a.sdk ∧
    (GetDevices devices info a).2.effects = a.effects ++ [.getDevList] ∧
    (GetDevices devices info a).1.map (fun ref => (GetDevices devices info a).2.heap.get? ref) =
      (devices.getDevList a.sdk).map (fun dev => some ⟨some dev⟩) := by
  refine ⟨rfl, rfl, ?_⟩
  have h := get?_fresh_refs (fun dev => DeviceWrapper.NewInstance (some dev))
    (devices.getDevList a.sdk) a.heap
  simpa [GetDevices, NewInstance, SetDevice, DeviceWrapper.new] using h

end Obsbot
